import Mathlib

/-!
Verification of the collection-and-deposit reconciliation core of the FOS
mobile client (services/depositService.ts, services/collectionService.ts and
the handleSave handlers of CollectionScreen.tsx / DepositScreen.tsx).

The two orchestrators (createCollectionOnErp, createCashDeposit) are chains of
sequential HTTP calls. They are embedded as deterministic functions of their
input parameters together with an environment record that fixes the outcome of
every network call site (transport error, or a response with status / parsed
fields), a model of the remote ERP document store, and the ambient clock.
Each run returns the thrown-or-returned result, the ordered trace of attempted
network calls, and the final store - so statements about call counts,
compensation and payload contents are statements about the embedded code.

Monetary amounts are embedded as rationals; every concrete amount appearing in
the source or the spec (100.00, 250.50, 49.50) is exactly representable, so no
floating-point rounding is being hidden by this choice.
-/

namespace FOS

/-- JS truthiness for an optional string value: both undefined (`none`) and the
empty string are falsy. Used to embed idioms like `x || undefined` and
`if (x)` from the source. -/
def truthyStr : Option String → Option String
  | none => none
  | some s => if s = "" then none else some s

/-- Embedding of the source idiom `s || undefined` on a plain string field. -/
def orUndefined (s : String) : Option String :=
  if s = "" then none else some s

/-- Embedding of the source idiom `a || b` where `a` is a string field and `b`
a string fallback (for example `fos_agent || fullName`). -/
def jsOrStr (a b : String) : String :=
  if a = "" then b else a

/-- First truthy value of a chain `a || b || c || dflt` of optional strings
ending in a plain-string default (the full-name fallback chain of
`fetchUserFullName`). -/
def firstTruthy : List (Option String) → String → String
  | [], dflt => dflt
  | x :: r, dflt =>
    match truthyStr x with
    | some v => v
    | none => firstTruthy r dflt

/-- Embedding of `String(n).padStart(2, '0')` on an already rendered string. -/
def padStart2 (s : String) : String :=
  if s.length ≥ 2 then s else String.mk (List.replicate (2 - s.length) '0') ++ s

/-- Embedding of the JS string trim method: strip whitespace from both ends
(the JS whitespace set coincides with `Char.isWhitespace` on every character
these inputs can contain). -/
def jsTrim (s : String) : String :=
  String.mk (((s.data.dropWhile Char.isWhitespace).reverse.dropWhile Char.isWhitespace).reverse)

/-- Digit test matching the regex class `\d`. -/
def isDigitChar (c : Char) : Bool := c.isDigit

/-- Numeric value of a digit string, as produced by `Number(...)` on the
captured groups of the date regexes. -/
def digitsToNat (l : List Char) : Nat :=
  l.foldl (fun a c => a * 10 + (c.toNat - 48)) 0

-- ─────────────────────────────────────────────
-- Calendar model of the JS Date object
-- ─────────────────────────────────────────────

/-- Local calendar date-time as read back from a JS `Date` via `getFullYear`,
`getMonth() + 1`, `getDate`, `getHours`, `getMinutes`, `getSeconds`. -/
structure JsDate where
  year : Int
  month : Nat
  day : Nat
  hour : Nat
  minute : Nat
  second : Nat
deriving DecidableEq

/-- Day count from civil date (days since 1970-01-01, proleptic Gregorian),
used to model the normalisation performed by the JS `Date` constructor. -/
def daysFromCivil (y : Int) (m : Nat) (d : Int) : Int :=
  let y1 : Int := if m ≤ 2 then y - 1 else y
  let era : Int := y1.fdiv 400
  let yoe : Int := y1 - era * 400
  let mp : Int := if m > 2 then (m : Int) - 3 else (m : Int) + 9
  let doy : Int := (153 * mp + 2).fdiv 5 + d - 1
  let doe : Int := yoe * 365 + yoe.fdiv 4 - yoe.fdiv 100 + doy
  era * 146097 + doe - 719468

/-- Inverse of `daysFromCivil`: the civil `(year, month, day)` of a day count. -/
def civilFromDays (z0 : Int) : Int × Nat × Nat :=
  let z : Int := z0 + 719468
  let era : Int := z.fdiv 146097
  let doe : Int := z - era * 146097
  let yoe : Int := (doe - doe.fdiv 1460 + doe.fdiv 36524 - doe.fdiv 146096).fdiv 365
  let y : Int := yoe + era * 400
  let doy : Int := doe - (365 * yoe + yoe.fdiv 4 - yoe.fdiv 100)
  let mp : Int := (5 * doy + 2).fdiv 153
  let d : Int := doy - (153 * mp + 2).fdiv 5 + 1
  let m : Int := if mp < 10 then mp + 3 else mp - 9
  (if m ≤ 2 then y + 1 else y, m.toNat, d.toNat)

/-- Embedding of the JS constructor `new Date(year, monthIndex, day, h, m, s)`
followed by reading the local components back: out-of-range fields roll over
into neighbouring months, days, hours as the constructor normalises them.
DST anomalies of the device timezone are ignored (they cannot change the date
components produced here for the inputs this app feeds in). For 4-digit years
the constructor never yields an Invalid Date, so the `isNaN` guards in the
source are modelled as always passing on this branch. -/
def jsNewDate (yyyy monthIndex day hh mi ss : Int) : JsDate :=
  let months : Int := yyyy * 12 + monthIndex
  let y : Int := months.fdiv 12
  let m : Nat := (months.fmod 12).toNat + 1
  let secs : Int := ss + 60 * mi + 3600 * hh
  let extraDays : Int := secs.fdiv 86400
  let tod : Int := secs.fmod 86400
  let z : Int := daysFromCivil y m 1 + (day - 1) + extraDays
  let c := civilFromDays z
  { year := c.1, month := c.2.1, day := c.2.2,
    hour := (tod.fdiv 3600).toNat,
    minute := ((tod.fmod 3600).fdiv 60).toNat,
    second := (tod.fmod 60).toNat }

-- ─────────────────────────────────────────────
-- Date formatting helpers (one per source definition)
-- ─────────────────────────────────────────────

/-- Embedding of `formatDateForErp` from depositService.ts: YYYY-MM-DD. -/
def formatDateForErp (d : JsDate) : String :=
  toString d.year ++ "-" ++ padStart2 (toString d.month) ++ "-" ++ padStart2 (toString d.day)

/-- Embedding of `formatDateTimeForErp` from collectionService.ts:
YYYY-MM-DD HH:MM:SS. -/
def formatDateTimeForErp (d : JsDate) : String :=
  toString d.year ++ "-" ++ padStart2 (toString d.month) ++ "-" ++ padStart2 (toString d.day)
    ++ " " ++ padStart2 (toString d.hour) ++ ":" ++ padStart2 (toString d.minute)
    ++ ":" ++ padStart2 (toString d.second)

/-- Embedding of `pad2` from CollectionScreen.tsx. -/
def pad2 (n : Nat) : String :=
  if n < 10 then "0" ++ toString n else toString n

/-- Embedding of `formatDateToErp` from CollectionScreen.tsx (same output
shape as `formatDateTimeForErp`, defined separately in the source). -/
def formatDateToErp (d : JsDate) : String :=
  toString d.year ++ "-" ++ pad2 d.month ++ "-" ++ pad2 d.day ++ " "
    ++ pad2 d.hour ++ ":" ++ pad2 d.minute ++ ":" ++ pad2 d.second

-- ─────────────────────────────────────────────
-- Error taxonomy: one constructor per throw site of the embedded code
-- ─────────────────────────────────────────────

/-- Errors thrown by the embedded code. Each constructor stands for one
`throw new Error(...)` site (or a rejected fetch promise, `netError`). -/
inductive JsErr where
  | failedToGetLoggedUser (status : Nat) (body : String)
  | invalidLoggedUserResponse
  | invalidDepositDate
  | invalidCollectionDate
  | invalidScreenDate
  | failedToCreateDeposit (status : Nat) (body : String)
  | depositNoDocName
  | failedToFetchCreatedDeposit
  | failedToCreateCollection (status : Nat) (body : String)
  | collectionNoDocName
  | failedToUploadReceipt (status : Nat) (body : String)
  | receiptNoFileUrl
  | failedToUpdateReceiptField (status : Nat) (body : String)
  | failedToFetchCreatedCollection
  | netError (msg : String)
deriving DecidableEq

-- ─────────────────────────────────────────────
-- Deposit-date normalisation (inline logic of createCashDeposit)
-- ─────────────────────────────────────────────

/-- Test for the anchored regex `^\d{4}-\d{2}-\d{2}$`. -/
def matchesYmd (s : String) : Bool :=
  match s.data with
  | [a, b, c, d, '-', e, f, '-', g, h] =>
    isDigitChar a && isDigitChar b && isDigitChar c && isDigitChar d &&
    isDigitChar e && isDigitChar f && isDigitChar g && isDigitChar h
  | _ => false

/-- Separator class (slash or hyphen) of the date regexes. -/
def isSepChar (c : Char) : Bool := c = '/' || c = '-'

/-- Match against the anchored day-month-year regex of `createCashDeposit`
(one or two digits, slash-or-hyphen, one or two digits, slash-or-hyphen,
exactly four digits),
returning the three captured digit groups. A maximal digit run longer than
the allowed count can never be rescued by regex backtracking here (a shorter
take leaves a digit where a separator or the end is required), so taking the
maximal run and checking its length is equivalent to the regex. -/
def matchDmy (s : String) : Option (String × String × String) :=
  let p1 := s.data.span isDigitChar
  if p1.1.length = 0 ∨ p1.1.length > 2 then none else
  match p1.2 with
  | c1 :: r2 =>
    if ¬ isSepChar c1 then none else
    let p2 := r2.span isDigitChar
    if p2.1.length = 0 ∨ p2.1.length > 2 then none else
    match p2.2 with
    | c2 :: r4 =>
      if ¬ isSepChar c2 then none else
      let p3 := r4.span isDigitChar
      if p3.1.length = 4 ∧ p3.2 = [] then some (String.mk p1.1, String.mk p2.1, String.mk p3.1)
      else none
    | [] => none
  | [] => none

/-- Embedding of the deposit-date normalisation inlined in `createCashDeposit`
(depositService.ts): empty input means today, `YYYY-MM-DD` passes through,
a day-month-year form (slash or hyphen separated, independently) is converted
with zero padding, anything else throws the
Invalid Deposit Date error. -/
def normalizeDepositDate (now : JsDate) (deposit_date : String) : Except JsErr String :=
  let raw := jsTrim deposit_date
  if raw = "" then Except.ok (formatDateForErp now)
  else if matchesYmd raw then Except.ok raw
  else
    match matchDmy raw with
    | some g => Except.ok (g.2.2 ++ "-" ++ padStart2 g.2.1 ++ "-" ++ padStart2 g.1)
    | none => Except.error JsErr.invalidDepositDate

-- ─────────────────────────────────────────────
-- Collection date-time parsing (collectionService.ts)
-- ─────────────────────────────────────────────

/-- Test for the unanchored prefix regex of `parseUserDateTime` branch 1
(four digits, hyphen, two digits, hyphen, two digits at the start). -/
def startsWithYmd (l : List Char) : Bool :=
  match l with
  | a :: b :: c :: d :: '-' :: e :: f :: '-' :: g :: h :: _ =>
    isDigitChar a && isDigitChar b && isDigitChar c && isDigitChar d &&
    isDigitChar e && isDigitChar f && isDigitChar g && isDigitChar h
  | _ => false

/-- Embedding of `raw.replace(' ', 'T')`: JS `replace` with a string pattern
replaces only the first occurrence. -/
def replaceFirstSpaceT : List Char → List Char
  | [] => []
  | c :: r => if c = ' ' then 'T' :: r else c :: replaceFirstSpaceT r

/-- Match against the day-month-year-with-optional-time regex of
`parseUserDateTime` branch 2 (day and month of one or two digits with
independent slash-or-hyphen separators, a four digit year, optionally
whitespace then hours, colon, two-digit minutes and optionally colon and
two-digit seconds). Returns `(day, month, year, hour, minute, second)` as
numbers. As with `matchDmy`, maximal digit runs with length checks are
equivalent to the greedy bounded groups of the anchored regex. -/
def matchDmyTime (l : List Char) : Option (Int × Int × Int × Int × Int × Int) :=
  let p1 := l.span isDigitChar
  if p1.1.length = 0 ∨ p1.1.length > 2 then none else
  match p1.2 with
  | c1 :: r2 =>
    if ¬ isSepChar c1 then none else
    let p2 := r2.span isDigitChar
    if p2.1.length = 0 ∨ p2.1.length > 2 then none else
    match p2.2 with
    | c2 :: r4 =>
      if ¬ isSepChar c2 then none else
      let p3 := r4.span isDigitChar
      if p3.1.length ≠ 4 then none else
      let dd : Int := digitsToNat p1.1
      let mm : Int := digitsToNat p2.1
      let yyyy : Int := digitsToNat p3.1
      match p3.2 with
      | [] => some (dd, mm, yyyy, 0, 0, 0)
      | rest =>
        let pw := rest.span Char.isWhitespace
        if pw.1.length = 0 then none else
        let ph := pw.2.span isDigitChar
        if ph.1.length = 0 ∨ ph.1.length > 2 then none else
        match ph.2 with
        | ':' :: r8 =>
          let pm := r8.span isDigitChar
          if pm.1.length ≠ 2 then none else
          let hh : Int := digitsToNat ph.1
          let mi : Int := digitsToNat pm.1
          match pm.2 with
          | [] => some (dd, mm, yyyy, hh, mi, 0)
          | ':' :: r10 =>
            let ps := r10.span isDigitChar
            if ps.1.length = 2 ∧ ps.2 = [] then some (dd, mm, yyyy, hh, mi, digitsToNat ps.1)
            else none
          | _ => none
        | _ => none
    | [] => none
  | [] => none

/-- Embedding of `parseUserDateTime` from collectionService.ts. Branch 1
(ISO-looking input) delegates to the JS engine string parser interpreted in
the device timezone, which is genuinely environment dependent for date-only
forms; it is therefore supplied as the `isoParse` argument (applied to the
input after the first space is replaced by a T, as in the source), with
`none` standing for an Invalid Date result. Branch 2 uses the local-time
constructor, whose rollover `jsNewDate` models; for four-digit years it never
produces an Invalid Date, so that branch always succeeds. -/
def parseUserDateTime (isoParse : String → Option JsDate) (input : String) :
    Option JsDate :=
  let raw := jsTrim input
  if raw = "" then none
  else if startsWithYmd raw.data then isoParse (String.mk (replaceFirstSpaceT raw.data))
  else
    match matchDmyTime raw.data with
    | some g => some (jsNewDate g.2.2.1 (g.2.1 - 1) g.1 g.2.2.2.1 g.2.2.2.2.1 g.2.2.2.2.2)
    | none => none

/-- Embedding of `normalizeCollectionDatetime` from collectionService.ts:
empty input yields `none` (the caller then inserts now), an unparseable input
throws, otherwise the parsed date is rendered in ERP format. -/
def normalizeCollectionDatetime (isoParse : String → Option JsDate)
    (input : Option String) : Except JsErr (Option String) :=
  let raw := jsTrim (input.getD "")
  if raw = "" then Except.ok none
  else
    match parseUserDateTime isoParse raw with
    | none => Except.error JsErr.invalidCollectionDate
    | some parsed => Except.ok (some (formatDateTimeForErp parsed))

-- ─────────────────────────────────────────────
-- Data model (types of collectionService.ts / depositService.ts)
-- ─────────────────────────────────────────────

/-- Payment mode enumeration `ModeType` of collectionService.ts. -/
inductive ModeType where
  | UPI
  | Cash
  | Cheque
  | NEFT
deriving DecidableEq

/-- Embedding of `FOSCollectionPayload`: the document body POSTed by
`createCollectionOnErp`. The source field `case` is named `caseRef` here
because `case` is reserved in Lean. -/
structure FOSCollectionPayload where
  fos_agent : String
  customer : String
  caseRef : Option String
  collection_datetime : Option String
  amount : ℚ
  mode : ModeType
  upi_txn_id : Option String
  pg_ref_no : Option String
  cheque_no : Option String
  bank_name : Option String
  is_deposited : Nat
deriving DecidableEq

/-- A stored Collection document on the modelled ERP server: the created
payload plus the separately written `receipt_image` field. -/
structure StoredCollection where
  fos_agent : String
  customer : String
  caseRef : Option String
  collection_datetime : Option String
  amount : ℚ
  mode : ModeType
  upi_txn_id : Option String
  pg_ref_no : Option String
  cheque_no : Option String
  bank_name : Option String
  is_deposited : Nat
  receipt_image : Option String
deriving DecidableEq

/-- The document the server stores when a Collection create succeeds. -/
def storedOfPayload (p : FOSCollectionPayload) : StoredCollection :=
  { fos_agent := p.fos_agent, customer := p.customer, caseRef := p.caseRef,
    collection_datetime := p.collection_datetime, amount := p.amount,
    mode := p.mode, upi_txn_id := p.upi_txn_id, pg_ref_no := p.pg_ref_no,
    cheque_no := p.cheque_no, bank_name := p.bank_name,
    is_deposited := p.is_deposited, receipt_image := none }

/-- Embedding of `FOSCashDepositItem`: one line item of a deposit. -/
structure FOSCashDepositItem where
  collection : String
  amount : ℚ
deriving DecidableEq

/-- Embedding of `FOSCashDepositPayload`: the document body POSTed by
`createCashDeposit`. -/
structure FOSCashDepositPayload where
  fos_agent : String
  deposit_date : String
  bank_name : Option String
  branch : Option String
  deposit_location : Option String
  deposit_slip_no : Option String
  amount_deposited : ℚ
  collections : List FOSCashDepositItem
deriving DecidableEq

/-- A stored Deposit document: the created payload plus the separately
written `deposit_slip_image` field. -/
structure StoredDeposit where
  payload : FOSCashDepositPayload
  deposit_slip_image : Option String
deriving DecidableEq

/-- The two fields of a previously fetched `FOSCollectionResponse` that
`createCashDeposit` reads from each selected collection (`col.name` and
`col.amount`). -/
structure CollectionRef where
  name : String
  amount : ℚ
deriving DecidableEq

/-- Embedding of the react-native-image-picker `Asset` fields the services
read. All are optional in the source typing. -/
structure ImageAsset where
  uri : Option String
  fileName : Option String
  assetType : Option String
deriving DecidableEq

/-- Embedding of `CreateCollectionParams` (collectionService.ts). The
`amount` field holds the numeric value: the screen passes the already parsed
number and the `parseFloat` the service applies to it is the identity on
finite numbers. -/
structure CreateCollectionParams where
  fos_agent : String
  customer : String
  caseRef : Option String
  amount : ℚ
  mode : ModeType
  upi_txn_id : String
  pg_ref_no : String
  cheque_no : String
  bank_name : String
  collection_datetime : Option String
  is_deposited : Bool
  receipt_image : Option ImageAsset
deriving DecidableEq

/-- Embedding of `CreateDepositParams` (depositService.ts). -/
structure CreateDepositParams where
  fos_agent : String
  deposit_date : String
  bank_name : String
  branch : String
  deposit_location : String
  deposit_slip_no : String
  selected_collections : List CollectionRef
  deposit_slip_image : Option ImageAsset
deriving DecidableEq

-- ─────────────────────────────────────────────
-- Network model
-- ─────────────────────────────────────────────

/-- One attempted network request, recorded in order in the run trace.
Constructors carry the request content the claims are about (payloads for
creates, document names and field values for updates). -/
inductive NetCall where
  | getLoggedUser
  | getUserDoc (email : String)
  | createCollection (p : FOSCollectionPayload)
  | uploadFile (doctype : String) (docname : String) (fieldname : String)
  | putCollectionReceipt (name : String) (fileUrl : String)
  | getCollectionDoc (name : String)
  | deleteCollectionDoc (name : String)
  | createDeposit (p : FOSCashDepositPayload)
  | putDepositSlip (name : String) (fileUrl : String)
  | putCollectionDeposited (name : String)
  | getDepositDoc (name : String)
  | deleteDepositDoc (name : String)
deriving DecidableEq

/-- Outcome of one `fetch` call: either the promise rejects (a transport
error, which throws at the await) or a response arrives. -/
inductive FetchOutcome (α : Type) where
  | netError (msg : String)
  | resp (r : α)
deriving DecidableEq

/-- Response of the get_logged_user endpoint as `fetchLoggedInUserEmail`
reads it: status flag and code, the body text (read in the failure branch)
and the parsed `json?.message` field. -/
structure LoggedUserResp where
  ok : Bool
  status : Nat
  text : String
  message : Option String
deriving DecidableEq

/-- Response of the get_logged_user endpoint as `getCSRFToken` reads it:
only the value captured by the csrf_token cookie regex matters, recorded
here already matched and URI-decoded (`none` when the set-cookie header is
absent or carries no csrf_token). -/
structure CsrfResp where
  csrfCookie : Option String
deriving DecidableEq

/-- Response of the User resource endpoint as `fetchUserFullName` reads it. -/
structure UserDocResp where
  ok : Bool
  full_name : Option String
  first_name : Option String
  username : Option String
deriving DecidableEq

/-- Response of a document create POST: status flag and code, body text, and
the parsed `json?.data?.name`. -/
structure CreateResp where
  ok : Bool
  status : Nat
  text : String
  dataName : Option String
deriving DecidableEq

/-- Response of the upload_file POST: status flag and code, body text, the
parsed `message?.file_url` and top-level `file_url` fields. -/
structure UploadResp where
  ok : Bool
  status : Nat
  text : String
  messageFileUrl : Option String
  topFileUrl : Option String
deriving DecidableEq

/-- Response of a document update PUT. -/
structure PutResp where
  ok : Bool
  status : Nat
  text : String
deriving DecidableEq

/-- Response of a single-document GET; when ok, the returned data is the
document held by the modelled server. -/
structure GetDocResp where
  ok : Bool
deriving DecidableEq

/-- Response of a document DELETE (the compensation path ignores it except
for whether the server actually removed the document). -/
structure DeleteResp where
  ok : Bool
deriving DecidableEq

/-- Embedding of the source chain
`uploadJson?.message?.file_url || uploadJson?.file_url ||
uploadJson?.message?.file_url` followed by the truthiness test the callers
apply: the third operand repeats the first and can never rescue a falsy
result, so the chain yields the first truthy of the two fields or nothing. -/
def jsFileUrlChain (msgUrl topUrl : Option String) : Option String :=
  match truthyStr msgUrl with
  | some v => some v
  | none =>
    match truthyStr topUrl with
    | some v => some v
    | none => truthyStr msgUrl

-- ─────────────────────────────────────────────
-- Modelled ERP document store
-- ─────────────────────────────────────────────

/-- The remote ERP store, holding the two document kinds this core touches.
The server is external to the repository; its store semantics (create
inserts the posted document, update rewrites fields, delete removes, fetch
returns the stored document) are the plain document-store reading of the
REST interface in the spec. -/
structure ErpServer where
  collections : String → Option StoredCollection
  deposits : String → Option StoredDeposit

/-- Insert or overwrite a Collection document. -/
def ErpServer.putCollectionDoc (s : ErpServer) (n : String) (d : StoredCollection) : ErpServer :=
  { s with collections := fun k => if k = n then some d else s.collections k }

/-- Rewrite a Collection document in place when present. -/
def ErpServer.modifyCollectionDoc (s : ErpServer) (n : String)
    (f : StoredCollection → StoredCollection) : ErpServer :=
  { s with collections := fun k => if k = n then (s.collections k).map f else s.collections k }

/-- Remove a Collection document. -/
def ErpServer.removeCollectionDoc (s : ErpServer) (n : String) : ErpServer :=
  { s with collections := fun k => if k = n then none else s.collections k }

/-- Insert or overwrite a Deposit document. -/
def ErpServer.putDepositDoc (s : ErpServer) (n : String) (d : StoredDeposit) : ErpServer :=
  { s with deposits := fun k => if k = n then some d else s.deposits k }

/-- Rewrite a Deposit document in place when present. -/
def ErpServer.modifyDepositDoc (s : ErpServer) (n : String)
    (f : StoredDeposit → StoredDeposit) : ErpServer :=
  { s with deposits := fun k => if k = n then (s.deposits k).map f else s.deposits k }

/-- Remove a Deposit document. -/
def ErpServer.removeDepositDoc (s : ErpServer) (n : String) : ErpServer :=
  { s with deposits := fun k => if k = n then none else s.deposits k }

-- ─────────────────────────────────────────────
-- Shared helper runs (identity resolution, CSRF)
-- ─────────────────────────────────────────────

/-- Embedding of `fetchLoggedInUserEmail` (defined identically in both
service modules) applied to the outcome of its one network call: non-2xx
throws with status and body, a missing or empty `message` throws the invalid
response error, otherwise the email is returned. -/
def runFetchLoggedInUserEmail (o : FetchOutcome LoggedUserResp) : Except JsErr String :=
  match o with
  | FetchOutcome.netError m => Except.error (JsErr.netError m)
  | FetchOutcome.resp r =>
    if ¬ r.ok then Except.error (JsErr.failedToGetLoggedUser r.status r.text)
    else
      match r.message with
      | some e => if e = "" then Except.error JsErr.invalidLoggedUserResponse else Except.ok e
      | none => Except.error JsErr.invalidLoggedUserResponse

/-- Embedding of `fetchUserFullName` (defined identically in both service
modules): non-2xx falls back to the email, otherwise the first truthy of
full_name, first_name, username, email. A transport error propagates. -/
def runFetchUserFullName (email : String) (o : FetchOutcome UserDocResp) : Except JsErr String :=
  match o with
  | FetchOutcome.netError m => Except.error (JsErr.netError m)
  | FetchOutcome.resp r =>
    if ¬ r.ok then Except.ok email
    else Except.ok (firstTruthy [r.full_name, r.first_name, r.username] email)

/-- Embedding of `getCSRFToken` (defined identically in both service
modules): it swallows every failure and returns the matched cookie value or
the empty string. -/
def runGetCSRFToken (o : FetchOutcome CsrfResp) : String :=
  match o with
  | FetchOutcome.netError _ => ""
  | FetchOutcome.resp r =>
    match r.csrfCookie with
    | some t => t
    | none => ""

-- ─────────────────────────────────────────────
-- createCollectionOnErp (collectionService.ts)
-- ─────────────────────────────────────────────

/-- Environment of one `createCollectionOnErp` run: the ambient clock, the
JS-engine ISO date parser, and the outcome of each network call site in the
order the source visits them. The rollback fields govern the two calls made
by `deleteCollectionDoc` when compensation runs. -/
structure CollectionEnv where
  emailRes : FetchOutcome LoggedUserResp
  userRes : FetchOutcome UserDocResp
  csrfRes : FetchOutcome CsrfResp
  now : JsDate
  isoParse : String → Option JsDate
  createRes : FetchOutcome CreateResp
  uploadRes : FetchOutcome UploadResp
  updateRes : FetchOutcome PutResp
  finalFetchRes : FetchOutcome GetDocResp
  rollbackCsrfRes : FetchOutcome CsrfResp
  rollbackDeleteRes : FetchOutcome DeleteResp

/-- Result of a run: the value returned or error thrown, the ordered trace of
attempted network calls, and the final state of the modelled server. -/
structure RunResult (α : Type) where
  result : Except JsErr α
  trace : List NetCall
  server : ErpServer

/-- Embedding of `CreateCollectionResult`: the document name plus the data
field of the final fetch (which the modelled server provides, hence an
option exactly as the untyped `fetchJson.data` may be absent at runtime). -/
structure CreateCollectionResult where
  collectionName : String
  collection : Option StoredCollection
deriving DecidableEq

/-- Embedding of the catch block of `createCollectionOnErp` in the case where
a document name was assigned: `deleteCollectionDoc` runs (one getCSRFToken
call, then one DELETE; a failure of either is swallowed by its try/catch),
then the original error is rethrown. -/
def collectionCompensate (env : CollectionEnv) (e : JsErr) (name : String)
    (t : List NetCall) (srv : ErpServer) : RunResult CreateCollectionResult :=
  let t1 := t ++ [NetCall.getLoggedUser, NetCall.deleteCollectionDoc name]
  let srv1 :=
    match env.rollbackDeleteRes with
    | FetchOutcome.resp dr => if dr.ok then srv.removeCollectionDoc name else srv
    | FetchOutcome.netError _ => srv
  ⟨Except.error e, t1, srv1⟩

/-- Final step of `createCollectionOnErp`: fetch the created document back.
A transport error or a non-2xx response throws, which the catch block turns
into compensation followed by the rethrow. -/
def collectionFinalFetch (env : CollectionEnv) (name : String)
    (t : List NetCall) (srv : ErpServer) : RunResult CreateCollectionResult :=
  let t1 := t ++ [NetCall.getCollectionDoc name]
  match env.finalFetchRes with
  | FetchOutcome.netError m => collectionCompensate env (JsErr.netError m) name t1 srv
  | FetchOutcome.resp fr =>
    if ¬ fr.ok then collectionCompensate env JsErr.failedToFetchCreatedCollection name t1 srv
    else ⟨Except.ok ⟨name, srv.collections name⟩, t1, srv⟩

/-- Receipt steps of `createCollectionOnErp`: when an asset with a truthy uri
was supplied, one upload call (non-2xx throws with status and body; a
response without a file url throws), then one PUT of the receipt_image field
(non-2xx throws with status and body). Every throw after this point runs
compensation. Without an asset the run goes straight to the final fetch. -/
def collectionReceiptStage (env : CollectionEnv) (ps : CreateCollectionParams)
    (name : String) (t : List NetCall) (srv : ErpServer) : RunResult CreateCollectionResult :=
  match ps.receipt_image with
  | some a =>
    match truthyStr a.uri with
    | some _ =>
      let t1 := t ++ [NetCall.uploadFile "FOS Collection" name "receipt_image"]
      match env.uploadRes with
      | FetchOutcome.netError m => collectionCompensate env (JsErr.netError m) name t1 srv
      | FetchOutcome.resp ur =>
        if ¬ ur.ok then
          collectionCompensate env (JsErr.failedToUploadReceipt ur.status ur.text) name t1 srv
        else
          match jsFileUrlChain ur.messageFileUrl ur.topFileUrl with
          | none => collectionCompensate env JsErr.receiptNoFileUrl name t1 srv
          | some fileUrl =>
            let t2 := t1 ++ [NetCall.putCollectionReceipt name fileUrl]
            match env.updateRes with
            | FetchOutcome.netError m => collectionCompensate env (JsErr.netError m) name t2 srv
            | FetchOutcome.resp pr =>
              if ¬ pr.ok then
                collectionCompensate env (JsErr.failedToUpdateReceiptField pr.status pr.text) name t2 srv
              else
                collectionFinalFetch env name t2
                  (srv.modifyCollectionDoc name (fun d => { d with receipt_image := some fileUrl }))
    | none => collectionFinalFetch env name t srv
  | none => collectionFinalFetch env name t srv

/-- The document body built by `createCollectionOnErp` before the create
POST, as a function of the resolved full name, the normalised collection
datetime and the call parameters. -/
def buildCollectionPayload (fullName erpDatetime : String)
    (ps : CreateCollectionParams) : FOSCollectionPayload :=
  { fos_agent := jsOrStr ps.fos_agent fullName,
    customer := ps.customer,
    caseRef := truthyStr ps.caseRef,
    collection_datetime := some erpDatetime,
    amount := ps.amount,
    mode := ps.mode,
    upi_txn_id := orUndefined ps.upi_txn_id,
    pg_ref_no := orUndefined ps.pg_ref_no,
    cheque_no := orUndefined ps.cheque_no,
    bank_name := orUndefined ps.bank_name,
    is_deposited := if ps.is_deposited then 1 else 0 }

/-- Embedding of `createCollectionOnErp` (collectionService.ts). The steps in
order: resolve the email (throws propagate with nothing to roll back),
resolve the full name, fetch the CSRF token (failures swallowed), normalise
the datetime (an invalid one throws before the create), POST the document,
extract the assigned name (a missing or empty name throws without
compensation because the source guards the rollback on a truthy
collectionName; the server-side document such a reply may correspond to is
unaddressable and is not tracked), then the receipt steps and final fetch,
whose failures all compensate with one best-effort delete and rethrow. -/
def createCollectionOnErp (env : CollectionEnv) (srv0 : ErpServer)
    (ps : CreateCollectionParams) : RunResult CreateCollectionResult :=
  let t0 : List NetCall := [NetCall.getLoggedUser]
  match runFetchLoggedInUserEmail env.emailRes with
  | Except.error e => ⟨Except.error e, t0, srv0⟩
  | Except.ok userEmail =>
    let t1 := t0 ++ [NetCall.getUserDoc userEmail]
    match runFetchUserFullName userEmail env.userRes with
    | Except.error e => ⟨Except.error e, t1, srv0⟩
    | Except.ok fullName =>
      let t2 := t1 ++ [NetCall.getLoggedUser]
      match normalizeCollectionDatetime env.isoParse ps.collection_datetime with
      | Except.error e => ⟨Except.error e, t2, srv0⟩
      | Except.ok normOpt =>
        let erpDatetime :=
          match normOpt with
          | some s => s
          | none => formatDateTimeForErp env.now
        let docPayload := buildCollectionPayload fullName erpDatetime ps
        let t3 := t2 ++ [NetCall.createCollection docPayload]
        match env.createRes with
        | FetchOutcome.netError m => ⟨Except.error (JsErr.netError m), t3, srv0⟩
        | FetchOutcome.resp cr =>
          if ¬ cr.ok then
            ⟨Except.error (JsErr.failedToCreateCollection cr.status cr.text), t3, srv0⟩
          else
            match truthyStr cr.dataName with
            | none => ⟨Except.error JsErr.collectionNoDocName, t3, srv0⟩
            | some collectionName =>
              collectionReceiptStage env ps collectionName t3
                (srv0.putCollectionDoc collectionName (storedOfPayload docPayload))

-- ─────────────────────────────────────────────
-- createCashDeposit (depositService.ts)
-- ─────────────────────────────────────────────

/-- Environment of one `createCashDeposit` run, one field per network call
site; `collectionPutRes i` is the outcome of the is_deposited update for the
i-th selected collection in the loop. -/
structure DepositEnv where
  emailRes : FetchOutcome LoggedUserResp
  userRes : FetchOutcome UserDocResp
  csrfRes : FetchOutcome CsrfResp
  now : JsDate
  createRes : FetchOutcome CreateResp
  uploadRes : FetchOutcome UploadResp
  slipPutRes : FetchOutcome PutResp
  collectionPutRes : Nat → FetchOutcome PutResp
  finalFetchRes : FetchOutcome GetDocResp
  rollbackCsrfRes : FetchOutcome CsrfResp
  rollbackDeleteRes : FetchOutcome DeleteResp

/-- The document body built by `createCashDeposit` before the create POST:
total amount is the left fold of the selected amounts from zero, line items
map each selected collection to its name-amount pair in input order. -/
def buildDepositPayload (fullName normalizedDepositDate : String)
    (ps : CreateDepositParams) : FOSCashDepositPayload :=
  { fos_agent := jsOrStr ps.fos_agent fullName,
    deposit_date := normalizedDepositDate,
    bank_name := orUndefined ps.bank_name,
    branch := orUndefined ps.branch,
    deposit_location := orUndefined ps.deposit_location,
    deposit_slip_no := orUndefined ps.deposit_slip_no,
    amount_deposited := ps.selected_collections.foldl (fun s c => s + c.amount) 0,
    collections := ps.selected_collections.map (fun col => ⟨col.name, col.amount⟩) }

/-- Embedding of the catch block of `createCashDeposit` when a document name
was assigned: `deleteDepositDoc` runs (one getCSRFToken call and one DELETE,
both failures swallowed), then the original error is rethrown. -/
def depositCompensate (env : DepositEnv) (e : JsErr) (name : String)
    (t : List NetCall) (srv : ErpServer) : RunResult (Option StoredDeposit) :=
  let t1 := t ++ [NetCall.getLoggedUser, NetCall.deleteDepositDoc name]
  let srv1 :=
    match env.rollbackDeleteRes with
    | FetchOutcome.resp dr => if dr.ok then srv.removeDepositDoc name else srv
    | FetchOutcome.netError _ => srv
  ⟨Except.error e, t1, srv1⟩

/-- Embedding of the per-collection update loop of `createCashDeposit`: one
PUT per selected collection in input order, each wrapped in its own
try/catch, so neither a non-2xx response nor a transport error stops the
loop or escapes it; a successful update flips the stored flag. -/
def depositFlagLoop (env : DepositEnv) (sel : List CollectionRef) (i : Nat)
    (t : List NetCall) (srv : ErpServer) : List NetCall × ErpServer :=
  match sel with
  | [] => (t, srv)
  | c :: rest =>
    let t1 := t ++ [NetCall.putCollectionDeposited c.name]
    let srv1 :=
      match env.collectionPutRes i with
      | FetchOutcome.resp pr =>
        if pr.ok then srv.modifyCollectionDoc c.name (fun d => { d with is_deposited := 1 })
        else srv
      | FetchOutcome.netError _ => srv
    depositFlagLoop env rest (i + 1) t1 srv1

/-- Final step of `createCashDeposit`: fetch the created deposit back. A
transport error or a non-2xx response throws, and because the deposit name
is set by then, the catch block runs the compensating delete and rethrows. -/
def depositFinalFetch (env : DepositEnv) (name : String)
    (t : List NetCall) (srv : ErpServer) : RunResult (Option StoredDeposit) :=
  let t1 := t ++ [NetCall.getDepositDoc name]
  match env.finalFetchRes with
  | FetchOutcome.netError m => depositCompensate env (JsErr.netError m) name t1 srv
  | FetchOutcome.resp fr =>
    if ¬ fr.ok then depositCompensate env JsErr.failedToFetchCreatedDeposit name t1 srv
    else ⟨Except.ok (srv.deposits name), t1, srv⟩

/-- Steps of `createCashDeposit` after the slip stage: the flag loop over the
selected collections, then the final fetch. -/
def depositAfterSlip (env : DepositEnv) (ps : CreateDepositParams) (name : String)
    (t : List NetCall) (srv : ErpServer) : RunResult (Option StoredDeposit) :=
  let r := depositFlagLoop env ps.selected_collections 0 t srv
  depositFinalFetch env name r.1 r.2

/-- Slip-image steps of `createCashDeposit`. Unlike the receipt steps of the
collection flow, a non-2xx upload response is only logged and the run
continues, and a missing file url silently skips the field PUT; the PUT has
no ok check at all. Transport errors at either await still throw (and are
then compensated by the catch block because the name is set). -/
def depositSlipStage (env : DepositEnv) (ps : CreateDepositParams) (name : String)
    (t : List NetCall) (srv : ErpServer) : RunResult (Option StoredDeposit) :=
  match ps.deposit_slip_image with
  | some a =>
    match truthyStr a.uri with
    | some _ =>
      let t1 := t ++ [NetCall.uploadFile "FOS Cash Deposit" name "deposit_slip_image"]
      match env.uploadRes with
      | FetchOutcome.netError m => depositCompensate env (JsErr.netError m) name t1 srv
      | FetchOutcome.resp ur =>
        if ¬ ur.ok then depositAfterSlip env ps name t1 srv
        else
          match jsFileUrlChain ur.messageFileUrl ur.topFileUrl with
          | none => depositAfterSlip env ps name t1 srv
          | some fileUrl =>
            let t2 := t1 ++ [NetCall.putDepositSlip name fileUrl]
            match env.slipPutRes with
            | FetchOutcome.netError m => depositCompensate env (JsErr.netError m) name t2 srv
            | FetchOutcome.resp pr =>
              let srv1 :=
                if pr.ok then
                  srv.modifyDepositDoc name (fun d => { d with deposit_slip_image := some fileUrl })
                else srv
              depositAfterSlip env ps name t2 srv1
    | none => depositAfterSlip env ps name t srv
  | none => depositAfterSlip env ps name t srv

/-- Embedding of `createCashDeposit` (depositService.ts). Steps in order:
resolve email, resolve full name, fetch CSRF token, normalise the deposit
date (an invalid one throws with nothing created yet), build the payload,
POST the deposit, extract the assigned name (missing or empty throws without
compensation since the rollback is guarded on a truthy depositName), then
the slip stage, the flag loop and the final fetch. The function performs no
emptiness check on selected_collections: an empty selection flows through
and creates a deposit with total zero and no line items. -/
def createCashDeposit (env : DepositEnv) (srv0 : ErpServer)
    (ps : CreateDepositParams) : RunResult (Option StoredDeposit) :=
  let t0 : List NetCall := [NetCall.getLoggedUser]
  match runFetchLoggedInUserEmail env.emailRes with
  | Except.error e => ⟨Except.error e, t0, srv0⟩
  | Except.ok userEmail =>
    let t1 := t0 ++ [NetCall.getUserDoc userEmail]
    match runFetchUserFullName userEmail env.userRes with
    | Except.error e => ⟨Except.error e, t1, srv0⟩
    | Except.ok fullName =>
      let t2 := t1 ++ [NetCall.getLoggedUser]
      match normalizeDepositDate env.now ps.deposit_date with
      | Except.error e => ⟨Except.error e, t2, srv0⟩
      | Except.ok normalizedDepositDate =>
        let payload := buildDepositPayload fullName normalizedDepositDate ps
        let t3 := t2 ++ [NetCall.createDeposit payload]
        match env.createRes with
        | FetchOutcome.netError m => ⟨Except.error (JsErr.netError m), t3, srv0⟩
        | FetchOutcome.resp cr =>
          if ¬ cr.ok then
            ⟨Except.error (JsErr.failedToCreateDeposit cr.status cr.text), t3, srv0⟩
          else
            match truthyStr cr.dataName with
            | none => ⟨Except.error JsErr.depositNoDocName, t3, srv0⟩
            | some depositName =>
              depositSlipStage env ps depositName t3
                (srv0.putDepositDoc depositName ⟨payload, none⟩)

-- ─────────────────────────────────────────────
-- CollectionScreen.tsx handleSave
-- ─────────────────────────────────────────────

/-- Modelled JS parseFloat restricted to optional leading whitespace, an
optional sign and a decimal literal (integer part, optional point, fraction
part, at least one digit overall); trailing characters are ignored as in the
prefix semantics of parseFloat. Exponent forms, Infinity and hex forms are
outside the inputs this app ever feeds in and are not modelled. -/
def jsParseFloatCore (l : List Char) : Option ℚ :=
  let p1 := l.span isDigitChar
  match p1.2 with
  | '.' :: r =>
    let p2 := r.span isDigitChar
    if p1.1.length = 0 ∧ p2.1.length = 0 then none
    else some ((digitsToNat p1.1 : ℚ) + (digitsToNat p2.1 : ℚ) / ((10 : ℚ) ^ p2.1.length))
  | _ => if p1.1.length = 0 then none else some (digitsToNat p1.1 : ℚ)

/-- Sign handling and whitespace skipping of the modelled parseFloat. -/
def jsParseFloat (s : String) : Option ℚ :=
  match s.data.dropWhile Char.isWhitespace with
  | '-' :: r => (jsParseFloatCore r).map (fun q => -q)
  | '+' :: r => jsParseFloatCore r
  | r => jsParseFloatCore r

/-- Match against the anchored screen regex of exactly two digits, slash, two
digits, slash, four digits, returning `(day, month, year)`. -/
def matchDdMmYyyySlash (s : String) : Option (Int × Int × Int) :=
  match s.data with
  | [a, b, '/', c, d, '/', e, f, g, h] =>
    if isDigitChar a && isDigitChar b && isDigitChar c && isDigitChar d &&
       isDigitChar e && isDigitChar f && isDigitChar g && isDigitChar h then
      some ((digitsToNat [a, b] : Int), (digitsToNat [c, d] : Int), (digitsToNat [e, f, g, h] : Int))
    else none
  | _ => none

/-- Match against the anchored screen regex of four digits, hyphen, two
digits, hyphen, two digits, returning `(year, month, day)`. -/
def matchYyyyMmDd (s : String) : Option (Int × Int × Int) :=
  match s.data with
  | [a, b, c, d, '-', e, f, '-', g, h] =>
    if isDigitChar a && isDigitChar b && isDigitChar c && isDigitChar d &&
       isDigitChar e && isDigitChar f && isDigitChar g && isDigitChar h then
      some ((digitsToNat [a, b, c, d] : Int), (digitsToNat [e, f] : Int), (digitsToNat [g, h] : Int))
    else none
  | _ => none

/-- Embedding of `parseUserInputToErpDatetime` from CollectionScreen.tsx:
empty input renders now, the two anchored patterns go through the local-time
constructor (which never yields an Invalid Date for four-digit years), any
other string falls back to the JS engine string parser, supplied as
`stringParse` with `none` for an Invalid Date; that case throws. -/
def parseUserInputToErpDatetime (stringParse : String → Option JsDate)
    (now : JsDate) (input : String) : Except JsErr String :=
  let value := jsTrim input
  if value = "" then Except.ok (formatDateToErp now)
  else
    let dateOpt : Option JsDate :=
      match matchDdMmYyyySlash value with
      | some g => some (jsNewDate g.2.2 (g.2.1 - 1) g.1 0 0 0)
      | none =>
        match matchYyyyMmDd value with
        | some g => some (jsNewDate g.1 (g.2.1 - 1) g.2.2 0 0 0)
        | none => stringParse value
    match dateOpt with
    | none => Except.error JsErr.invalidScreenDate
    | some d => Except.ok (formatDateToErp d)

/-- Form state of CollectionScreen.tsx read by handleSave. -/
structure FOSCollectionForm where
  fos_agent : String
  customer : String
  collection_datetime : String
  amount : String
  mode : ModeType
  upi_txn_id : String
  pg_ref_no : String
  cheque_no : String
  bank_name : String
  receipt_image_asset : Option ImageAsset
deriving DecidableEq

/-- Outcome of the pre-network part of a handleSave: either an alert is shown
and the handler returns without touching the service, or the service is
invoked with the given parameters. -/
inductive CollectionSaveStep where
  | alert (title : String) (msg : String)
  | callService (ps : CreateCollectionParams)
deriving DecidableEq

/-- Embedding of the validation sequence of handleSave in
CollectionScreen.tsx, in source order: required fields, amount parse and
positivity, the UPI transaction id requirement, the cheque number
requirement, then the screen-side date parse; the first failing check
returns its alert. On success the service parameters are exactly the
trimmed form fields, with is_deposited false (the screen passes the falsy
literal zero) and no case reference. -/
def collectionHandleSaveValidate (stringParse : String → Option JsDate)
    (screenNow : JsDate) (form : FOSCollectionForm) : CollectionSaveStep :=
  let fosAgent := jsTrim form.fos_agent
  let customer := jsTrim form.customer
  let amountStr := jsTrim form.amount
  if fosAgent = "" ∨ customer = "" ∨ amountStr = "" then
    CollectionSaveStep.alert "Missing Fields" "Please fill FOS Agent, Customer and Amount."
  else
    match jsParseFloat amountStr with
    | none =>
      CollectionSaveStep.alert "Invalid Amount" "Please enter a valid amount greater than 0."
    | some amountNumber =>
      if amountNumber ≤ 0 then
        CollectionSaveStep.alert "Invalid Amount" "Please enter a valid amount greater than 0."
      else if form.mode = ModeType.UPI ∧ jsTrim form.upi_txn_id = "" then
        CollectionSaveStep.alert "Missing UPI Txn ID" "Please enter UPI transaction ID for UPI mode."
      else if form.mode = ModeType.Cheque ∧ jsTrim form.cheque_no = "" then
        CollectionSaveStep.alert "Missing Cheque No" "Please enter Cheque No for Cheque mode."
      else
        match parseUserInputToErpDatetime stringParse screenNow form.collection_datetime with
        | Except.error _ =>
          CollectionSaveStep.alert "Invalid Date"
            "Invalid date format. Please use DD/MM/YYYY or YYYY-MM-DD."
        | Except.ok erpDatetime =>
          CollectionSaveStep.callService
            { fos_agent := fosAgent, customer := customer, caseRef := none,
              amount := amountNumber, mode := form.mode,
              upi_txn_id := jsTrim form.upi_txn_id, pg_ref_no := jsTrim form.pg_ref_no,
              cheque_no := jsTrim form.cheque_no, bank_name := jsTrim form.bank_name,
              collection_datetime := some erpDatetime,
              is_deposited := false,
              receipt_image := form.receipt_image_asset }

/-- Network calls performed by one tap of Save on CollectionScreen: none when
validation alerts, otherwise exactly the trace of the service run. -/
def collectionHandleSaveTrace (env : CollectionEnv) (stringParse : String → Option JsDate)
    (screenNow : JsDate) (srv : ErpServer) (form : FOSCollectionForm) : List NetCall :=
  match collectionHandleSaveValidate stringParse screenNow form with
  | CollectionSaveStep.alert _ _ => []
  | CollectionSaveStep.callService ps => (createCollectionOnErp env srv ps).trace

-- ─────────────────────────────────────────────
-- DepositScreen.tsx handleSave
-- ─────────────────────────────────────────────

/-- Form state of DepositScreen.tsx read by handleSave. -/
structure FOSDepositForm where
  fos_agent : String
  bank_name : String
  deposit_date : String
  branch : String
  deposit_location : String
  deposit_slip_no : String
  deposit_slip_image_asset : Option ImageAsset
deriving DecidableEq

/-- Outcome of the pre-network part of handleSave on DepositScreen. -/
inductive DepositSaveStep where
  | alert (title : String) (msg : String)
  | callService (ps : CreateDepositParams)
deriving DecidableEq

/-- Embedding of the validation sequence of handleSave in DepositScreen.tsx:
the selection-emptiness guard first (selectedIds lists the members of the
selectedCollections Set, whose size is zero exactly when this list is
empty), then the required-fields guard (untrimmed truthiness as in the
source), then the service call on the collections filtered by membership of
their name in the selection. -/
def depositHandleSaveValidate (selectedIds : List String)
    (undepositedCollections : List CollectionRef) (form : FOSDepositForm) : DepositSaveStep :=
  if selectedIds.length = 0 then
    DepositSaveStep.alert "No Collections" "Please select at least one collection to deposit."
  else if form.fos_agent = "" ∨ form.bank_name = "" then
    DepositSaveStep.alert "Missing Fields" "Please fill FOS Agent and Bank Name."
  else
    DepositSaveStep.callService
      { fos_agent := form.fos_agent, deposit_date := form.deposit_date,
        bank_name := form.bank_name, branch := form.branch,
        deposit_location := form.deposit_location, deposit_slip_no := form.deposit_slip_no,
        selected_collections :=
          undepositedCollections.filter (fun col => selectedIds.contains col.name),
        deposit_slip_image := form.deposit_slip_image_asset }

/-- Network calls performed by one tap of Save on DepositScreen. -/
def depositHandleSaveTrace (env : DepositEnv) (srv : ErpServer)
    (selectedIds : List String) (undepositedCollections : List CollectionRef)
    (form : FOSDepositForm) : List NetCall :=
  match depositHandleSaveValidate selectedIds undepositedCollections form with
  | DepositSaveStep.alert _ _ => []
  | DepositSaveStep.callService ps => (createCashDeposit env srv ps).trace

-- ─────────────────────────────────────────────
-- List request URLs (fetchUndepositedCollections, fetchMyDeposits,
-- fetchCollectionsForLoggedInUser)
-- ─────────────────────────────────────────────

/-- Characters encodeURIComponent leaves as they are. -/
def isUnreservedUriChar (c : Char) : Bool :=
  c.isAlpha || c.isDigit || c = '-' || c = '_' || c = '.' || c = '!' ||
  c = '~' || c = '*' || c = Char.ofNat 39 || c = '(' || c = ')'

/-- Uppercase hex digit, as in percent escapes. -/
def hexUpper (n : Nat) : Char :=
  if n < 10 then Char.ofNat (48 + n) else Char.ofNat (55 + n)

/-- Lowercase hex digit, as in JSON unicode escapes. -/
def hexLower (n : Nat) : Char :=
  if n < 10 then Char.ofNat (48 + n) else Char.ofNat (87 + n)

/-- UTF-8 bytes of a code point. -/
def utf8Bytes (n : Nat) : List Nat :=
  if n < 128 then [n]
  else if n < 2048 then [192 + n / 64, 128 + n % 64]
  else if n < 65536 then [224 + n / 4096, 128 + (n / 64) % 64, 128 + n % 64]
  else [240 + n / 262144, 128 + (n / 4096) % 64, 128 + (n / 64) % 64, 128 + n % 64]

/-- Percent escape of one character. -/
def pctEncodeChar (c : Char) : List Char :=
  (utf8Bytes c.toNat).flatMap (fun b => ['%', hexUpper (b / 16), hexUpper (b % 16)])

/-- Embedding of encodeURIComponent. -/
def encodeURIComponent (s : String) : String :=
  String.mk (s.data.flatMap (fun c => if isUnreservedUriChar c then [c] else pctEncodeChar c))

/-- JSON escape of one character inside a string literal, as JSON.stringify
renders it. -/
def jsonEscapeChar (c : Char) : List Char :=
  if c = '"' then ['\\', '"']
  else if c = '\\' then ['\\', '\\']
  else if c = Char.ofNat 10 then ['\\', 'n']
  else if c = Char.ofNat 13 then ['\\', 'r']
  else if c = Char.ofNat 9 then ['\\', 't']
  else if c = Char.ofNat 8 then ['\\', 'b']
  else if c = Char.ofNat 12 then ['\\', 'f']
  else if c.toNat < 32 then ['\\', 'u', '0', '0', hexLower (c.toNat / 16), hexLower (c.toNat % 16)]
  else [c]

/-- JSON string literal of a string, as JSON.stringify renders it. -/
def jsonString (s : String) : String :=
  "\"" ++ String.mk (s.data.flatMap jsonEscapeChar) ++ "\""

/-- The base URL constant of erpConfig.ts. -/
def ERP_BASE_URL : String := "https://erp.pradisystechnologies.in"

/-- The FOS Collection resource URL (erpConfig.ts / depositService.ts). -/
def ERP_FOS_COLLECTION_URL : String := ERP_BASE_URL ++ "/api/resource/FOS Collection"

/-- The FOS Cash Deposit resource URL (depositService.ts). -/
def ERP_FOS_DEPOSIT_URL : String := ERP_BASE_URL ++ "/api/resource/FOS Cash Deposit"

/-- The list request URL built by `fetchUndepositedCollections`
(depositService.ts) for a given logged-in email. -/
def fetchUndepositedCollectionsUrl (userEmail : String) : String :=
  let filters := "[[\"owner\",\"=\"," ++ jsonString userEmail ++ "],[\"is_deposited\",\"=\",0]]"
  ERP_FOS_COLLECTION_URL ++ "?filters=" ++ encodeURIComponent filters
    ++ "&fields=[\"name\",\"customer\",\"fos_agent\",\"amount\",\"mode\",\"bank_name\",\"is_deposited\",\"creation\",\"collection_datetime\",\"receipt_image\"]"
    ++ "&limit_page_length=999&order_by=creation desc"

/-- The list request URL built by `fetchMyDeposits` (depositService.ts). -/
def fetchMyDepositsUrl (userEmail : String) : String :=
  let filters := "[[\"owner\",\"=\"," ++ jsonString userEmail ++ "]]"
  ERP_FOS_DEPOSIT_URL ++ "?filters=" ++ encodeURIComponent filters
    ++ "&fields=[\"*\"]&limit_page_length=999" ++ "&order_by=creation desc"

/-- The filters JSON built by `fetchCollectionsForLoggedInUser`
(collectionService.ts): by fos_agent when an agent name was resolved (the
resolved name is already trimmed, so truthiness is the emptiness test), by
owner otherwise. -/
def fetchCollectionsForLoggedInUserFilters (agentName userEmail : String) : String :=
  if agentName ≠ "" then "[[\"fos_agent\",\"=\"," ++ jsonString agentName ++ "]]"
  else "[[\"owner\",\"=\"," ++ jsonString userEmail ++ "]]"

/-- The list request URL built by `fetchCollectionsForLoggedInUser`
(collectionService.ts). -/
def fetchCollectionsForLoggedInUserUrl (agentName userEmail : String) : String :=
  ERP_FOS_COLLECTION_URL ++ "?filters="
    ++ encodeURIComponent (fetchCollectionsForLoggedInUserFilters agentName userEmail)
    ++ "&fields=[\"*\"]&limit_page_length=999" ++ "&order_by=creation desc"

/-- Modelled from the spec: the ERP list endpoint is external to this
repository (spec sections 1 and 6 treat the server as a black box); per the
list contract it returns the filtered rows in the requested order truncated
to at most limit_page_length rows. -/
def erpListRows {α : Type} (rows : List α) (limitPageLength : Nat) : List α :=
  rows.take limitPageLength

-- ─────────────────────────────────────────────
-- Decidability of run results, trace predicates, concrete fixtures
-- ─────────────────────────────────────────────

instance {ε α : Type} [DecidableEq ε] [DecidableEq α] : DecidableEq (Except ε α) := fun x y =>
  match x, y with
  | Except.ok a, Except.ok b =>
    if h : a = b then isTrue (by rw [h]) else isFalse (by simp [h])
  | Except.error a, Except.error b =>
    if h : a = b then isTrue (by rw [h]) else isFalse (by simp [h])
  | Except.ok _, Except.error _ => isFalse (by simp)
  | Except.error _, Except.ok _ => isFalse (by simp)

/-- Recogniser of compensating Deposit deletes in a trace. -/
def isDeleteDepositCall : NetCall → Bool
  | NetCall.deleteDepositDoc _ => true
  | _ => false

/-- Recogniser of compensating Collection deletes in a trace. -/
def isDeleteCollectionCall : NetCall → Bool
  | NetCall.deleteCollectionDoc _ => true
  | _ => false

/-- Successful get_logged_user response carrying the given email. -/
def okLoggedUser (email : String) : FetchOutcome LoggedUserResp :=
  FetchOutcome.resp ⟨true, 200, "", some email⟩

/-- Successful User document response carrying the given full name. -/
def okUserDoc (fullName : String) : FetchOutcome UserDocResp :=
  FetchOutcome.resp ⟨true, some fullName, none, none⟩

/-- Fixture CSRF cookie response. -/
def okCsrfTok : FetchOutcome CsrfResp := FetchOutcome.resp ⟨some "tok"⟩

/-- Successful document create response assigning the given name. -/
def okCreated (name : String) : FetchOutcome CreateResp :=
  FetchOutcome.resp ⟨true, 201, "", some name⟩

/-- Successful upload response carrying the given file url. -/
def okUploaded (url : String) : FetchOutcome UploadResp :=
  FetchOutcome.resp ⟨true, 200, "", some url, none⟩

/-- Fixture non-2xx upload response. -/
def badUpload : FetchOutcome UploadResp :=
  FetchOutcome.resp ⟨false, 500, "Server Error", none, none⟩

/-- Successful PUT response. -/
def okPutOutcome : FetchOutcome PutResp := FetchOutcome.resp ⟨true, 200, ""⟩

/-- Fixture non-2xx PUT response. -/
def badPutOutcome : FetchOutcome PutResp := FetchOutcome.resp ⟨false, 500, "Server Error"⟩

/-- Successful single-document GET response. -/
def okGetOutcome : FetchOutcome GetDocResp := FetchOutcome.resp ⟨true⟩

/-- Fixture non-2xx single-document GET response. -/
def badGetOutcome : FetchOutcome GetDocResp := FetchOutcome.resp ⟨false⟩

/-- Successful DELETE response. -/
def okDeleteOutcome : FetchOutcome DeleteResp := FetchOutcome.resp ⟨true⟩

/-- Server with no documents. -/
def emptyServer : ErpServer := ⟨fun _ => none, fun _ => none⟩

/-- Fixture JS engine ISO parser that accepts nothing; the concrete inputs
below never reach the ISO branch. -/
def noIsoParse : String → Option JsDate := fun _ => none

/-- Fixture clock: 2025-11-24 10:00:00 local. -/
def testNow : JsDate := ⟨2025, 11, 24, 10, 0, 0⟩

/-- Deposit environment in which every call succeeds. -/
def depositEnvAllOk : DepositEnv :=
  ⟨okLoggedUser "agent@x.com", okUserDoc "Agent One", okCsrfTok, testNow,
   okCreated "DEP-1", okUploaded "/files/slip.jpg", okPutOutcome,
   fun _ => okPutOutcome, okGetOutcome, okCsrfTok, okDeleteOutcome⟩

/-- Deposit environment in which only the final fetch fails. -/
def depositEnvFetchFail : DepositEnv := { depositEnvAllOk with finalFetchRes := badGetOutcome }

/-- Deposit environment in which only the slip upload returns non-2xx. -/
def depositEnvUploadBad : DepositEnv := { depositEnvAllOk with uploadRes := badUpload }

/-- Collection environment in which every call succeeds. -/
def collectionEnvAllOk : CollectionEnv :=
  ⟨okLoggedUser "agent@x.com", okUserDoc "Agent One", okCsrfTok, testNow, noIsoParse,
   okCreated "COL-9", okUploaded "/files/receipt.jpg", okPutOutcome,
   okGetOutcome, okCsrfTok, okDeleteOutcome⟩

/-- Collection environment in which only the receipt upload returns non-2xx. -/
def collectionEnvUploadBad : CollectionEnv := { collectionEnvAllOk with uploadRes := badUpload }

/-- A slip image asset with a truthy uri. -/
def slipAsset : ImageAsset := ⟨some "file:///slip.jpg", none, none⟩

/-- A receipt image asset with a truthy uri. -/
def receiptAsset : ImageAsset := ⟨some "file:///receipt.jpg", none, none⟩

/-- Deposit parameters with an empty selection. -/
def emptySelectionParams : CreateDepositParams := ⟨"Agent", "", "HDFC", "", "", "", [], none⟩

/-- Deposit parameters selecting three collections with the amounts of the
spec example. -/
def threeSelectionParams : CreateDepositParams :=
  ⟨"Agent", "24/11/2025", "HDFC", "", "", "",
   [⟨"COL-1", 100⟩, ⟨"COL-2", 250.5⟩, ⟨"COL-3", 49.5⟩], none⟩

/-- Deposit parameters with one selected collection and a slip image. -/
def slipSelectionParams : CreateDepositParams :=
  ⟨"Agent", "", "HDFC", "", "", "", [⟨"COL-1", 100⟩], some slipAsset⟩

/-- Collection parameters in UPI mode with an empty transaction id. -/
def upiNoTxnParams : CreateCollectionParams :=
  ⟨"Agent", "Customer A", none, 500, ModeType.UPI, "", "", "", "", none, false, none⟩

/-- Collection parameters with the caller-supplied deposited flag set. -/
def depositedTrueParams : CreateCollectionParams :=
  ⟨"Agent", "Customer A", none, 500, ModeType.Cash, "", "", "", "", none, true, none⟩

/-- Collection parameters with a receipt image. -/
def receiptParams : CreateCollectionParams :=
  ⟨"Agent", "Customer A", none, 500, ModeType.Cash, "", "", "", "", none, false, some receiptAsset⟩

/-- Collection form in UPI mode with an empty transaction id field. -/
def upiForm : FOSCollectionForm :=
  ⟨"Agent", "Customer A", "", "500", ModeType.UPI, "", "", "", "", none⟩

/-- Deposit form with agent and bank filled. -/
def depositFormOk : FOSDepositForm := ⟨"Agent", "HDFC", "", "", "", "", none⟩


-- ─────────────────────────────────────────────
-- Helper lemmas shared by the claim theorems
-- ─────────────────────────────────────────────


lemma runFetchLoggedInUserEmail_ok (email : String) (h : email ≠ "") :
    runFetchLoggedInUserEmail (okLoggedUser email) = Except.ok email := by
  simp [runFetchLoggedInUserEmail, okLoggedUser, h]

lemma runFetchUserFullName_resp (email : String) (u : UserDocResp) :
    ∃ fn, runFetchUserFullName email (FetchOutcome.resp u) = Except.ok fn := by
  by_cases h : u.ok <;> simp [runFetchUserFullName, h]

lemma depositFlagLoop_fst (env : DepositEnv) (sel : List CollectionRef) (i : Nat)
    (t : List NetCall) (srv : ErpServer) :
    (depositFlagLoop env sel i t srv).1
      = t ++ sel.map (fun c => NetCall.putCollectionDeposited c.name) := by
  induction sel generalizing i t srv with
  | nil => simp [depositFlagLoop]
  | cons c rest ih => simp [depositFlagLoop, ih]

lemma depositAfterSlip_ok (env : DepositEnv) (ps : CreateDepositParams) (name : String)
    (t : List NetCall) (srv : ErpServer)
    (hff : env.finalFetchRes = FetchOutcome.resp ⟨true⟩) :
    (depositAfterSlip env ps name t srv).result
        = Except.ok ((depositFlagLoop env ps.selected_collections 0 t srv).2.deposits name) ∧
    (depositAfterSlip env ps name t srv).trace
        = t ++ ps.selected_collections.map (fun c => NetCall.putCollectionDeposited c.name)
            ++ [NetCall.getDepositDoc name] := by
  unfold depositAfterSlip depositFinalFetch
  rw [hff]
  simp [depositFlagLoop_fst]

lemma depositAfterSlip_fetchFail (env : DepositEnv) (ps : CreateDepositParams) (name : String)
    (t : List NetCall) (srv : ErpServer)
    (hff : env.finalFetchRes = FetchOutcome.resp ⟨false⟩) :
    (depositAfterSlip env ps name t srv).result = Except.error JsErr.failedToFetchCreatedDeposit ∧
    (depositAfterSlip env ps name t srv).trace
        = t ++ ps.selected_collections.map (fun c => NetCall.putCollectionDeposited c.name)
            ++ [NetCall.getDepositDoc name, NetCall.getLoggedUser, NetCall.deleteDepositDoc name] := by
  unfold depositAfterSlip depositFinalFetch depositCompensate
  rw [hff]
  simp [depositFlagLoop_fst]

lemma depositSlipStage_resp (env : DepositEnv) (ps : CreateDepositParams) (name : String)
    (t : List NetCall) (srv : ErpServer)
    (hup : ∃ ur, env.uploadRes = FetchOutcome.resp ur)
    (hsp : ∃ pr, env.slipPutRes = FetchOutcome.resp pr) :
    ∃ u srv1,
      depositSlipStage env ps name t srv = depositAfterSlip env ps name (t ++ u) srv1 ∧
      (∀ c ∈ u, c = NetCall.uploadFile "FOS Cash Deposit" name "deposit_slip_image"
          ∨ ∃ url, c = NetCall.putDepositSlip name url) := by
  obtain ⟨ur, hur⟩ := hup
  obtain ⟨pr, hpr⟩ := hsp
  unfold depositSlipStage
  cases himg : ps.deposit_slip_image with
  | none => exact ⟨[], srv, by simp, by simp⟩
  | some a =>
    cases huri : truthyStr a.uri with
    | none => exact ⟨[], srv, by simp [huri], by simp⟩
    | some u0 =>
      simp only [huri, hur, hpr]
      cases hok : ur.ok with
      | false =>
        refine ⟨[NetCall.uploadFile "FOS Cash Deposit" name "deposit_slip_image"], srv, by simp, ?_⟩
        intro c hc; simp at hc; subst hc; exact Or.inl rfl
      | true =>
        simp only [Bool.true_eq_false, if_false, reduceIte]
        cases hurl : jsFileUrlChain ur.messageFileUrl ur.topFileUrl with
        | none =>
          refine ⟨[NetCall.uploadFile "FOS Cash Deposit" name "deposit_slip_image"], srv, by simp, ?_⟩
          intro c hc; simp at hc; subst hc; exact Or.inl rfl
        | some url =>
          refine ⟨[NetCall.uploadFile "FOS Cash Deposit" name "deposit_slip_image",
                   NetCall.putDepositSlip name url],
                  if pr.ok then ErpServer.modifyDepositDoc srv name
                    (fun d => { d with deposit_slip_image := some url }) else srv, ?_, ?_⟩
          · cases hpok : pr.ok <;> simp [hpok]
          · intro c hc
            simp at hc
            rcases hc with h | h
            · subst h; exact Or.inl rfl
            · subst h; exact Or.inr ⟨url, rfl⟩

lemma createCashDeposit_eq (env : DepositEnv) (srv : ErpServer) (ps : CreateDepositParams)
    (email fn nd name : String)
    (he : runFetchLoggedInUserEmail env.emailRes = Except.ok email)
    (hu : runFetchUserFullName email env.userRes = Except.ok fn)
    (hd : normalizeDepositDate env.now ps.deposit_date = Except.ok nd)
    (hc : env.createRes = okCreated name)
    (hn : name ≠ "") :
    createCashDeposit env srv ps =
      depositSlipStage env ps name
        [NetCall.getLoggedUser, NetCall.getUserDoc email, NetCall.getLoggedUser,
         NetCall.createDeposit (buildDepositPayload fn nd ps)]
        (srv.putDepositDoc name ⟨buildDepositPayload fn nd ps, none⟩) := by
  simp only [createCashDeposit, he, hu, hd, hc, okCreated]
  simp [truthyStr, hn]

lemma createCashDeposit_createFail (env : DepositEnv) (srv : ErpServer) (ps : CreateDepositParams)
    (email fn nd : String) (cr : CreateResp)
    (he : runFetchLoggedInUserEmail env.emailRes = Except.ok email)
    (hu : runFetchUserFullName email env.userRes = Except.ok fn)
    (hd : normalizeDepositDate env.now ps.deposit_date = Except.ok nd)
    (hc : env.createRes = FetchOutcome.resp cr)
    (hok : cr.ok = false) :
    (createCashDeposit env srv ps).result
        = Except.error (JsErr.failedToCreateDeposit cr.status cr.text) ∧
    (createCashDeposit env srv ps).trace
        = [NetCall.getLoggedUser, NetCall.getUserDoc email, NetCall.getLoggedUser,
           NetCall.createDeposit (buildDepositPayload fn nd ps)] := by
  simp only [createCashDeposit, he, hu, hd, hc]
  simp [hok]




lemma collectionCompensate_result (env : CollectionEnv) (e : JsErr) (name : String)
    (t : List NetCall) (srv : ErpServer) :
    (collectionCompensate env e name t srv).result = Except.error e := rfl

lemma collectionCompensate_trace (env : CollectionEnv) (e : JsErr) (name : String)
    (t : List NetCall) (srv : ErpServer) :
    (collectionCompensate env e name t srv).trace
      = t ++ [NetCall.getLoggedUser, NetCall.deleteCollectionDoc name] := rfl

lemma collectionFinalFetch_ok (env : CollectionEnv) (name : String)
    (t : List NetCall) (srv : ErpServer)
    (hff : env.finalFetchRes = FetchOutcome.resp ⟨true⟩) :
    collectionFinalFetch env name t srv
      = ⟨Except.ok ⟨name, srv.collections name⟩, t ++ [NetCall.getCollectionDoc name], srv⟩ := by
  unfold collectionFinalFetch
  rw [hff]
  rfl

lemma collectionFinalFetch_fail (env : CollectionEnv) (name : String)
    (t : List NetCall) (srv : ErpServer)
    (hff : env.finalFetchRes = FetchOutcome.resp ⟨false⟩) :
    collectionFinalFetch env name t srv
      = collectionCompensate env JsErr.failedToFetchCreatedCollection name
          (t ++ [NetCall.getCollectionDoc name]) srv := by
  unfold collectionFinalFetch
  rw [hff]
  rfl

lemma collectionReceiptStage_none (env : CollectionEnv) (ps : CreateCollectionParams)
    (name : String) (t : List NetCall) (srv : ErpServer)
    (hps : ps.receipt_image = none) :
    collectionReceiptStage env ps name t srv = collectionFinalFetch env name t srv := by
  simp [collectionReceiptStage, hps]

lemma collectionReceiptStage_uploadFail (env : CollectionEnv) (ps : CreateCollectionParams)
    (name : String) (t : List NetCall) (srv : ErpServer) (a : ImageAsset) (u0 : String)
    (ur : UploadResp)
    (hps : ps.receipt_image = some a) (huri : truthyStr a.uri = some u0)
    (hup : env.uploadRes = FetchOutcome.resp ur) (hok : ur.ok = false) :
    collectionReceiptStage env ps name t srv
      = collectionCompensate env (JsErr.failedToUploadReceipt ur.status ur.text) name
          (t ++ [NetCall.uploadFile "FOS Collection" name "receipt_image"]) srv := by
  simp [collectionReceiptStage, hps, huri, hup, hok]

lemma collectionReceiptStage_noUrl (env : CollectionEnv) (ps : CreateCollectionParams)
    (name : String) (t : List NetCall) (srv : ErpServer) (a : ImageAsset) (u0 : String)
    (ur : UploadResp)
    (hps : ps.receipt_image = some a) (huri : truthyStr a.uri = some u0)
    (hup : env.uploadRes = FetchOutcome.resp ur) (hok : ur.ok = true)
    (hurl : jsFileUrlChain ur.messageFileUrl ur.topFileUrl = none) :
    collectionReceiptStage env ps name t srv
      = collectionCompensate env JsErr.receiptNoFileUrl name
          (t ++ [NetCall.uploadFile "FOS Collection" name "receipt_image"]) srv := by
  simp [collectionReceiptStage, hps, huri, hup, hok, hurl]

lemma collectionReceiptStage_updateFail (env : CollectionEnv) (ps : CreateCollectionParams)
    (name : String) (t : List NetCall) (srv : ErpServer) (a : ImageAsset) (u0 url : String)
    (ur : UploadResp) (pr : PutResp)
    (hps : ps.receipt_image = some a) (huri : truthyStr a.uri = some u0)
    (hup : env.uploadRes = FetchOutcome.resp ur) (hok : ur.ok = true)
    (hurl : jsFileUrlChain ur.messageFileUrl ur.topFileUrl = some url)
    (hpr : env.updateRes = FetchOutcome.resp pr) (hpok : pr.ok = false) :
    collectionReceiptStage env ps name t srv
      = collectionCompensate env (JsErr.failedToUpdateReceiptField pr.status pr.text) name
          (t ++ [NetCall.uploadFile "FOS Collection" name "receipt_image",
                 NetCall.putCollectionReceipt name url]) srv := by
  simp [collectionReceiptStage, hps, huri, hup, hok, hurl, hpr, hpok]

lemma collectionReceiptStage_uploadOk (env : CollectionEnv) (ps : CreateCollectionParams)
    (name : String) (t : List NetCall) (srv : ErpServer) (a : ImageAsset) (u0 url : String)
    (ur : UploadResp) (pr : PutResp)
    (hps : ps.receipt_image = some a) (huri : truthyStr a.uri = some u0)
    (hup : env.uploadRes = FetchOutcome.resp ur) (hok : ur.ok = true)
    (hurl : jsFileUrlChain ur.messageFileUrl ur.topFileUrl = some url)
    (hpr : env.updateRes = FetchOutcome.resp pr) (hpok : pr.ok = true) :
    collectionReceiptStage env ps name t srv
      = collectionFinalFetch env name
          (t ++ [NetCall.uploadFile "FOS Collection" name "receipt_image",
                 NetCall.putCollectionReceipt name url])
          (srv.modifyCollectionDoc name (fun d => { d with receipt_image := some url })) := by
  simp [collectionReceiptStage, hps, huri, hup, hok, hurl, hpr, hpok]

lemma createCollectionOnErp_eq (env : CollectionEnv) (srv : ErpServer)
    (ps : CreateCollectionParams) (email fn name : String) (dtv : Option String)
    (he : runFetchLoggedInUserEmail env.emailRes = Except.ok email)
    (hu : runFetchUserFullName email env.userRes = Except.ok fn)
    (hd : normalizeCollectionDatetime env.isoParse ps.collection_datetime = Except.ok dtv)
    (hc : env.createRes = okCreated name)
    (hn : name ≠ "") :
    createCollectionOnErp env srv ps =
      collectionReceiptStage env ps name
        [NetCall.getLoggedUser, NetCall.getUserDoc email, NetCall.getLoggedUser,
         NetCall.createCollection
           (buildCollectionPayload fn (dtv.getD (formatDateTimeForErp env.now)) ps)]
        (srv.putCollectionDoc name
          (storedOfPayload
            (buildCollectionPayload fn (dtv.getD (formatDateTimeForErp env.now)) ps))) := by
  simp only [createCollectionOnErp, he, hu, hd, hc, okCreated]
  cases dtv <;> simp [truthyStr, hn]




lemma collectionFinalFetch_rollback (env : CollectionEnv) (o : FetchOutcome DeleteResp)
    (name : String) (t : List NetCall) (srv : ErpServer) :
    (collectionFinalFetch { env with rollbackDeleteRes := o } name t srv).result
      = (collectionFinalFetch env name t srv).result := by
  unfold collectionFinalFetch
  cases hf : env.finalFetchRes with
  | netError m => simp [hf, collectionCompensate]
  | resp fr => cases hfo : fr.ok <;> simp [hf, hfo, collectionCompensate]

lemma collectionReceiptStage_rollback (env : CollectionEnv) (o : FetchOutcome DeleteResp)
    (ps : CreateCollectionParams) (name : String) (t : List NetCall) (srv : ErpServer) :
    (collectionReceiptStage { env with rollbackDeleteRes := o } ps name t srv).result
      = (collectionReceiptStage env ps name t srv).result := by
  unfold collectionReceiptStage
  cases hps : ps.receipt_image with
  | none => exact collectionFinalFetch_rollback env o name t srv
  | some a =>
    cases huri : truthyStr a.uri with
    | none =>
      simp only [huri]
      exact collectionFinalFetch_rollback env o name t srv
    | some u0 =>
      simp only [huri]
      cases hup : env.uploadRes with
      | netError m => simp [hup, collectionCompensate]
      | resp ur =>
        cases hok : ur.ok with
        | false => simp [hup, hok, collectionCompensate]
        | true =>
          simp only [hup, hok, Bool.true_eq_false, if_false, reduceIte]
          cases hurl : jsFileUrlChain ur.messageFileUrl ur.topFileUrl with
          | none => simp [collectionCompensate]
          | some url =>
            cases hpr : env.updateRes with
            | netError m => simp [hpr, collectionCompensate]
            | resp pr =>
              cases hpok : pr.ok with
              | false => simp [hpr, hpok, collectionCompensate]
              | true =>
                simp only [hpok, Bool.true_eq_false, Bool.not_true, reduceIte]
                rw [← hup, ← hpr]
                exact collectionFinalFetch_rollback env o name _ _

lemma createCollectionOnErp_rollback (env : CollectionEnv) (o : FetchOutcome DeleteResp)
    (srv : ErpServer) (ps : CreateCollectionParams) :
    (createCollectionOnErp { env with rollbackDeleteRes := o } srv ps).result
      = (createCollectionOnErp env srv ps).result := by
  unfold createCollectionOnErp
  cases he : runFetchLoggedInUserEmail env.emailRes with
  | error e => simp [he]
  | ok email =>
    cases hu : runFetchUserFullName email env.userRes with
    | error e => simp [he, hu]
    | ok fn =>
      cases hd : normalizeCollectionDatetime env.isoParse ps.collection_datetime with
      | error e => simp [he, hu, hd]
      | ok dtv =>
        cases hc : env.createRes with
        | netError m => simp [he, hu, hd, hc]
        | resp cr =>
          cases hok : cr.ok with
          | false => simp [he, hu, hd, hc, hok]
          | true =>
            simp only [he, hu, hd, hc, hok, Bool.true_eq_false, reduceIte, Bool.not_true]
            cases hname : truthyStr cr.dataName with
            | none => simp
            | some name =>
              simp only []
              exact collectionReceiptStage_rollback env o ps name _ _




lemma countP_zero_of {α : Type} (p : α → Bool) (l : List α)
    (h : ∀ c ∈ l, p c = false) : l.countP p = 0 := by
  rw [List.countP_eq_zero]
  intro a ha
  simp [h a ha]

lemma countP_deletes_map_puts (p : NetCall → Bool)
    (hput : ∀ n, p (NetCall.putCollectionDeposited n) = false)
    (sel : List CollectionRef) :
    (sel.map (fun c => NetCall.putCollectionDeposited c.name)).countP p = 0 := by
  apply countP_zero_of
  intro c hc
  obtain ⟨x, _, hx⟩ := List.mem_map.mp hc
  subst hx
  exact hput x.name

/-- C1: the compensating delete of the created deposit is triggered exactly by
errors thrown after the document name is assigned, not by failures at or
before the create step. A failed create throws without any delete; with the
slip upload and slip update answered by HTTP responses of any status and the
final fetch succeeding, the run succeeds and performs no delete; a failed
final fetch, however, is fatal and performs exactly one compensating delete. -/
theorem depositCompensationScope (env : DepositEnv) (srv : ErpServer) (ps : CreateDepositParams)
    (email fn nd : String)
    (he : runFetchLoggedInUserEmail env.emailRes = Except.ok email)
    (hu : runFetchUserFullName email env.userRes = Except.ok fn)
    (hd : normalizeDepositDate env.now ps.deposit_date = Except.ok nd) :
    (∀ cr, env.createRes = FetchOutcome.resp cr → cr.ok = false →
       (createCashDeposit env srv ps).result
           = Except.error (JsErr.failedToCreateDeposit cr.status cr.text) ∧
       ((createCashDeposit env srv ps).trace.countP isDeleteDepositCall) = 0) ∧
    (∀ name, name ≠ "" → env.createRes = okCreated name →
       (∃ ur, env.uploadRes = FetchOutcome.resp ur) →
       (∃ pr, env.slipPutRes = FetchOutcome.resp pr) →
       env.finalFetchRes = FetchOutcome.resp ⟨true⟩ →
       (createCashDeposit env srv ps).result.isOk = true ∧
       ((createCashDeposit env srv ps).trace.countP isDeleteDepositCall) = 0) ∧
    (∀ name, name ≠ "" → env.createRes = okCreated name →
       (∃ ur, env.uploadRes = FetchOutcome.resp ur) →
       (∃ pr, env.slipPutRes = FetchOutcome.resp pr) →
       env.finalFetchRes = FetchOutcome.resp ⟨false⟩ →
       (createCashDeposit env srv ps).result = Except.error JsErr.failedToFetchCreatedDeposit ∧
       ((createCashDeposit env srv ps).trace.countP isDeleteDepositCall) = 1) := by
  refine ⟨?_, ?_, ?_⟩
  · intro cr hc hok
    obtain ⟨hres, htr⟩ := createCashDeposit_createFail env srv ps email fn nd cr he hu hd hc hok
    refine ⟨hres, ?_⟩
    rw [htr]
    simp [isDeleteDepositCall]
  · intro name hn hc hup hsp hff
    rw [createCashDeposit_eq env srv ps email fn nd name he hu hd hc hn]
    obtain ⟨u, srv1, heq, hmem⟩ := depositSlipStage_resp env ps name _ _ hup hsp
    rw [heq]
    obtain ⟨hres, htr⟩ := depositAfterSlip_ok env ps name _ srv1 hff
    refine ⟨by rw [hres]; rfl, ?_⟩
    rw [htr]
    simp only [List.countP_append]
    have h1 : u.countP isDeleteDepositCall = 0 := by
      apply countP_zero_of
      intro c hc'
      rcases hmem c hc' with h | ⟨url, h⟩ <;> subst h <;> rfl
    have h2 := countP_deletes_map_puts isDeleteDepositCall (fun _ => rfl) ps.selected_collections
    simp [h1, h2, isDeleteDepositCall]
  · intro name hn hc hup hsp hff
    rw [createCashDeposit_eq env srv ps email fn nd name he hu hd hc hn]
    obtain ⟨u, srv1, heq, hmem⟩ := depositSlipStage_resp env ps name _ _ hup hsp
    rw [heq]
    obtain ⟨hres, htr⟩ := depositAfterSlip_fetchFail env ps name _ srv1 hff
    refine ⟨hres, ?_⟩
    rw [htr]
    simp only [List.countP_append]
    have h1 : u.countP isDeleteDepositCall = 0 := by
      apply countP_zero_of
      intro c hc'
      rcases hmem c hc' with h | ⟨url, h⟩ <;> subst h <;> rfl
    have h2 := countP_deletes_map_puts isDeleteDepositCall (fun _ => rfl) ps.selected_collections
    simp [h1, h2, isDeleteDepositCall]

/-- C1 witness: on an all-success run with a slip image and one selected
collection, the operation succeeds and no compensating delete occurs. -/
theorem depositCompensationScope_witness :
    (createCashDeposit depositEnvAllOk emptyServer slipSelectionParams).result.isOk = true ∧
    ((createCashDeposit depositEnvAllOk emptyServer slipSelectionParams).trace.countP
        isDeleteDepositCall) = 0 :=
  (depositCompensationScope depositEnvAllOk emptyServer slipSelectionParams
      "agent@x.com" "Agent One" "2025-11-24" rfl rfl rfl).2.1
    "DEP-1" (by decide) rfl ⟨_, rfl⟩ ⟨_, rfl⟩ rfl

/-- C1 counterexample: with every step succeeding except the final fetch of
the stored deposit, the claimed behaviour (final-fetch failures never
trigger the compensating delete and are non-fatal) is violated: the run
fails with the fetch error and the created deposit is deleted once. -/
theorem depositFinalFetchFailure_cex :
    (createCashDeposit depositEnvFetchFail emptyServer slipSelectionParams).result
        = Except.error JsErr.failedToFetchCreatedDeposit ∧
    ((createCashDeposit depositEnvFetchFail emptyServer slipSelectionParams).trace.countP
        isDeleteDepositCall) = 1 := ⟨rfl, rfl⟩

/-- C2 counterexample: createCashDeposit with an empty selection does not
fail with an empty-selection error and performs network calls: the run
succeeds, posting a deposit whose line-item list is empty, after five
network calls of which the first precedes any validation. -/
theorem emptySelectionNoGuard_cex :
    (createCashDeposit depositEnvAllOk emptyServer emptySelectionParams).result
        = Except.ok (some ⟨buildDepositPayload "Agent One" "2025-11-24" emptySelectionParams, none⟩) ∧
    (createCashDeposit depositEnvAllOk emptyServer emptySelectionParams).trace
        = [NetCall.getLoggedUser, NetCall.getUserDoc "agent@x.com", NetCall.getLoggedUser,
           NetCall.createDeposit (buildDepositPayload "Agent One" "2025-11-24" emptySelectionParams),
           NetCall.getDepositDoc "DEP-1"] ∧
    (buildDepositPayload "Agent One" "2025-11-24" emptySelectionParams).collections = [] :=
  ⟨rfl, rfl, rfl⟩

/-- C2 amended: the empty-selection guard lives in the handleSave handler of
DepositScreen, which shows the No Collections alert and returns before the
service is invoked, so a save tap with an empty selection performs zero
network calls; the service itself has no such check (see the
counterexample). -/
theorem emptySelectionGuardInHandleSave (undep : List CollectionRef) (form : FOSDepositForm) :
    depositHandleSaveValidate [] undep form
        = DepositSaveStep.alert "No Collections"
            "Please select at least one collection to deposit." ∧
    ∀ (env : DepositEnv) (srv : ErpServer),
        depositHandleSaveTrace env srv [] undep form = [] := by
  constructor
  · rfl
  · intro env srv
    rfl



lemma foldl_amount_eq_sum_map (l : List CollectionRef) :
    l.foldl (fun s c => s + c.amount) 0 = (l.map CollectionRef.amount).sum := by
  rw [List.sum_eq_foldl, List.foldl_map]

/-- C5: the deposit payload posted by createCashDeposit has a total equal to
the sum of the selected amounts and line items pairing each selected
collection name with its amount, in input order; under a successful identity
resolution and create, exactly this payload appears in the network trace;
the spec example of amounts 100.00, 250.50, 49.50 yields a total of 400.00
and three line items. -/
theorem depositTotalAndLineItems :
    (∀ (fullName nd : String) (ps : CreateDepositParams),
      (buildDepositPayload fullName nd ps).amount_deposited
          = (ps.selected_collections.map CollectionRef.amount).sum ∧
      (buildDepositPayload fullName nd ps).collections
          = ps.selected_collections.map (fun c => ⟨c.name, c.amount⟩) ∧
      (buildDepositPayload fullName nd ps).collections.length
          = ps.selected_collections.length) ∧
    (∀ (env : DepositEnv) (srv : ErpServer) (ps : CreateDepositParams)
        (email fn nd name : String),
      runFetchLoggedInUserEmail env.emailRes = Except.ok email →
      runFetchUserFullName email env.userRes = Except.ok fn →
      normalizeDepositDate env.now ps.deposit_date = Except.ok nd →
      env.createRes = okCreated name → name ≠ "" →
      (∃ ur, env.uploadRes = FetchOutcome.resp ur) →
      (∃ pr, env.slipPutRes = FetchOutcome.resp pr) →
      env.finalFetchRes = FetchOutcome.resp ⟨true⟩ →
      NetCall.createDeposit (buildDepositPayload fn nd ps)
          ∈ (createCashDeposit env srv ps).trace) ∧
    (buildDepositPayload "Agent One" "2025-11-24" threeSelectionParams).amount_deposited = 400 ∧
    (buildDepositPayload "Agent One" "2025-11-24" threeSelectionParams).collections
        = [⟨"COL-1", 100⟩, ⟨"COL-2", 250.5⟩, ⟨"COL-3", 49.5⟩] := by
  refine ⟨?_, ?_, ?_, rfl⟩
  · intro fullName nd ps
    refine ⟨?_, rfl, by simp [buildDepositPayload]⟩
    simp [buildDepositPayload, foldl_amount_eq_sum_map]
  · intro env srv ps email fn nd name he hu hd hc hn hup hsp hff
    rw [createCashDeposit_eq env srv ps email fn nd name he hu hd hc hn]
    obtain ⟨u, srv1, heq, hmem⟩ := depositSlipStage_resp env ps name _ _ hup hsp
    rw [heq]
    obtain ⟨hres, htr⟩ := depositAfterSlip_ok env ps name _ srv1 hff
    rw [htr]
    simp
  · show (threeSelectionParams.selected_collections.foldl (fun s c => s + c.amount) 0) = 400
    norm_num [threeSelectionParams]

/-- C5 witness: on a concrete all-success run over the spec example
selection, the posted payload appears in the trace. -/
theorem depositTotalAndLineItems_witness :
    NetCall.createDeposit (buildDepositPayload "Agent One" "2025-11-24" threeSelectionParams)
        ∈ (createCashDeposit depositEnvAllOk emptyServer threeSelectionParams).trace :=
  depositTotalAndLineItems.2.1 depositEnvAllOk emptyServer threeSelectionParams
    "agent@x.com" "Agent One" "2025-11-24" "DEP-1" rfl rfl rfl rfl (by decide)
    ⟨_, rfl⟩ ⟨_, rfl⟩ rfl



lemma depositFlagLoop_puts_fst (env : DepositEnv) (o : Nat → FetchOutcome PutResp)
    (sel : List CollectionRef) (i : Nat) (t : List NetCall) (srv srv2 : ErpServer) :
    (depositFlagLoop { env with collectionPutRes := o } sel i t srv).1
      = (depositFlagLoop env sel i t srv2).1 := by
  rw [depositFlagLoop_fst, depositFlagLoop_fst]

lemma depositFinalFetch_puts_trace (env : DepositEnv) (o : Nat → FetchOutcome PutResp)
    (name : String) (t : List NetCall) (srv srv2 : ErpServer) :
    (depositFinalFetch { env with collectionPutRes := o } name t srv).trace
      = (depositFinalFetch env name t srv2).trace := by
  unfold depositFinalFetch
  cases hf : env.finalFetchRes with
  | netError m => simp [hf, depositCompensate]
  | resp fr => cases hfo : fr.ok <;> simp [hf, hfo, depositCompensate]

lemma depositAfterSlip_puts_trace (env : DepositEnv) (o : Nat → FetchOutcome PutResp)
    (ps : CreateDepositParams) (name : String) (t : List NetCall) (srv srv2 : ErpServer) :
    (depositAfterSlip { env with collectionPutRes := o } ps name t srv).trace
      = (depositAfterSlip env ps name t srv2).trace := by
  unfold depositAfterSlip
  dsimp only
  rw [depositFlagLoop_fst, depositFlagLoop_fst]
  exact depositFinalFetch_puts_trace env o name _ _ _

lemma depositSlipStage_puts_trace (env : DepositEnv) (o : Nat → FetchOutcome PutResp)
    (ps : CreateDepositParams) (name : String) (t : List NetCall) (srv : ErpServer) :
    (depositSlipStage { env with collectionPutRes := o } ps name t srv).trace
      = (depositSlipStage env ps name t srv).trace := by
  unfold depositSlipStage
  cases hps : ps.deposit_slip_image with
  | none => exact depositAfterSlip_puts_trace env o ps name t srv srv
  | some a =>
    cases huri : truthyStr a.uri with
    | none =>
      simp only [huri]
      exact depositAfterSlip_puts_trace env o ps name t srv srv
    | some u0 =>
      simp only [huri]
      cases hup : env.uploadRes with
      | netError m => simp [hup, depositCompensate]
      | resp ur =>
        cases hok : ur.ok with
        | false =>
          simp only [hup, hok, Bool.false_eq_true, not_false_eq_true, reduceIte, Bool.not_false]
          rw [← hup]
          exact depositAfterSlip_puts_trace env o ps name _ srv srv
        | true =>
          simp only [hup, hok, Bool.true_eq_false, reduceIte, Bool.not_true]
          cases hurl : jsFileUrlChain ur.messageFileUrl ur.topFileUrl with
          | none =>
            rw [← hup]
            exact depositAfterSlip_puts_trace env o ps name _ srv srv
          | some url =>
            cases hpr : env.slipPutRes with
            | netError m => simp [hpr, depositCompensate]
            | resp pr =>
              simp only [hpr]
              cases hpok : pr.ok with
              | false =>
                simp only [Bool.false_eq_true, reduceIte]
                rw [← hup, ← hpr]
                exact depositAfterSlip_puts_trace env o ps name _ _ _
              | true =>
                simp only [reduceIte]
                rw [← hup, ← hpr]
                exact depositAfterSlip_puts_trace env o ps name _ _ _



/-- C8: the per-collection flag loop of createCashDeposit attempts one update
for every selected collection whatever the outcomes of the individual
updates are (the environment leaves them fully unconstrained), the run still
succeeds, and replacing the loop outcomes wholesale changes neither the
success of the call nor its network trace. -/
theorem depositFlagLoopIsolation (env : DepositEnv) (srv : ErpServer) (ps : CreateDepositParams)
    (email fn nd name : String)
    (he : runFetchLoggedInUserEmail env.emailRes = Except.ok email)
    (hu : runFetchUserFullName email env.userRes = Except.ok fn)
    (hd : normalizeDepositDate env.now ps.deposit_date = Except.ok nd)
    (hc : env.createRes = okCreated name) (hn : name ≠ "")
    (hup : ∃ ur, env.uploadRes = FetchOutcome.resp ur)
    (hsp : ∃ pr, env.slipPutRes = FetchOutcome.resp pr)
    (hff : env.finalFetchRes = FetchOutcome.resp ⟨true⟩) :
    (∀ c ∈ ps.selected_collections,
        NetCall.putCollectionDeposited c.name ∈ (createCashDeposit env srv ps).trace) ∧
    (createCashDeposit env srv ps).result.isOk = true ∧
    (∀ o : Nat → FetchOutcome PutResp,
        (createCashDeposit { env with collectionPutRes := o } srv ps).result.isOk = true ∧
        (createCashDeposit { env with collectionPutRes := o } srv ps).trace
            = (createCashDeposit env srv ps).trace) := by
  have main : ∀ (env2 : DepositEnv),
      runFetchLoggedInUserEmail env2.emailRes = Except.ok email →
      runFetchUserFullName email env2.userRes = Except.ok fn →
      normalizeDepositDate env2.now ps.deposit_date = Except.ok nd →
      env2.createRes = okCreated name →
      (∃ ur, env2.uploadRes = FetchOutcome.resp ur) →
      (∃ pr, env2.slipPutRes = FetchOutcome.resp pr) →
      env2.finalFetchRes = FetchOutcome.resp ⟨true⟩ →
      (∀ c ∈ ps.selected_collections,
          NetCall.putCollectionDeposited c.name ∈ (createCashDeposit env2 srv ps).trace) ∧
      (createCashDeposit env2 srv ps).result.isOk = true := by
    intro env2 he2 hu2 hd2 hc2 hup2 hsp2 hff2
    rw [createCashDeposit_eq env2 srv ps email fn nd name he2 hu2 hd2 hc2 hn]
    obtain ⟨u, srv1, heq, hmem⟩ := depositSlipStage_resp env2 ps name _ _ hup2 hsp2
    rw [heq]
    obtain ⟨hres, htr⟩ := depositAfterSlip_ok env2 ps name _ srv1 hff2
    refine ⟨?_, by rw [hres]; rfl⟩
    intro c hcm
    rw [htr]
    simp only [List.mem_append]
    exact Or.inl (Or.inr (List.mem_map.mpr ⟨c, hcm, rfl⟩))
  obtain ⟨h1, h2⟩ := main env he hu hd hc hup hsp hff
  refine ⟨h1, h2, ?_⟩
  intro o
  obtain ⟨hsp1, hsp2⟩ := hsp
  obtain ⟨hup1, hupx⟩ := hup
  have hmod := main { env with collectionPutRes := o } he hu hd hc ⟨hup1, hupx⟩ ⟨hsp1, hsp2⟩ hff
  refine ⟨hmod.2, ?_⟩
  rw [createCashDeposit_eq { env with collectionPutRes := o } srv ps email fn nd name he hu hd hc hn,
      createCashDeposit_eq env srv ps email fn nd name he hu hd hc hn]
  exact depositSlipStage_puts_trace env o ps name _ _

/-- C8 witness: a concrete run over three selected collections in which the
second flag update fails with a transport error and the third with a server
rejection still attempts all three updates and reports success. -/
theorem depositFlagLoopIsolation_witness :
    (NetCall.putCollectionDeposited "COL-2"
        ∈ (createCashDeposit
            { depositEnvAllOk with collectionPutRes := fun i =>
                if i = 1 then FetchOutcome.netError "socket hangup"
                else if i = 2 then badPutOutcome else okPutOutcome }
            emptyServer threeSelectionParams).trace) ∧
    (createCashDeposit
        { depositEnvAllOk with collectionPutRes := fun i =>
            if i = 1 then FetchOutcome.netError "socket hangup"
            else if i = 2 then badPutOutcome else okPutOutcome }
        emptyServer threeSelectionParams).result.isOk = true := by
  have h := depositFlagLoopIsolation
      { depositEnvAllOk with collectionPutRes := fun i =>
          if i = 1 then FetchOutcome.netError "socket hangup"
          else if i = 2 then badPutOutcome else okPutOutcome }
      emptyServer threeSelectionParams
      "agent@x.com" "Agent One" "2025-11-24" "DEP-1" rfl rfl rfl rfl (by decide)
      ⟨_, rfl⟩ ⟨_, rfl⟩ rfl
  exact ⟨h.1 ⟨"COL-2", 250.5⟩ (by simp [threeSelectionParams]), h.2.1⟩




/-- C6: in createCollectionOnErp, a failure of any step after the record is
created (receipt upload rejected, upload response without a file url,
receipt-field update rejected, final fetch rejected) deletes the created
remote record exactly once, and the original error of the failing step is
re-thrown; moreover the outcome of the compensating delete never changes
the reported result, so a second failure during deletion does not raise. -/
theorem collectionCompensationOnce (env : CollectionEnv) (srv : ErpServer)
    (ps : CreateCollectionParams) (email fn name : String) (dtv : Option String)
    (he : runFetchLoggedInUserEmail env.emailRes = Except.ok email)
    (hu : runFetchUserFullName email env.userRes = Except.ok fn)
    (hd : normalizeCollectionDatetime env.isoParse ps.collection_datetime = Except.ok dtv)
    (hc : env.createRes = okCreated name) (hn : name ≠ "") :
    (∀ (a : ImageAsset) (u0 : String) (ur : UploadResp),
        ps.receipt_image = some a → truthyStr a.uri = some u0 →
        env.uploadRes = FetchOutcome.resp ur → ur.ok = false →
        (createCollectionOnErp env srv ps).result
            = Except.error (JsErr.failedToUploadReceipt ur.status ur.text) ∧
        ((createCollectionOnErp env srv ps).trace.countP isDeleteCollectionCall) = 1) ∧
    (∀ (a : ImageAsset) (u0 : String) (ur : UploadResp),
        ps.receipt_image = some a → truthyStr a.uri = some u0 →
        env.uploadRes = FetchOutcome.resp ur → ur.ok = true →
        jsFileUrlChain ur.messageFileUrl ur.topFileUrl = none →
        (createCollectionOnErp env srv ps).result = Except.error JsErr.receiptNoFileUrl ∧
        ((createCollectionOnErp env srv ps).trace.countP isDeleteCollectionCall) = 1) ∧
    (∀ (a : ImageAsset) (u0 url : String) (ur : UploadResp) (pr : PutResp),
        ps.receipt_image = some a → truthyStr a.uri = some u0 →
        env.uploadRes = FetchOutcome.resp ur → ur.ok = true →
        jsFileUrlChain ur.messageFileUrl ur.topFileUrl = some url →
        env.updateRes = FetchOutcome.resp pr → pr.ok = false →
        (createCollectionOnErp env srv ps).result
            = Except.error (JsErr.failedToUpdateReceiptField pr.status pr.text) ∧
        ((createCollectionOnErp env srv ps).trace.countP isDeleteCollectionCall) = 1) ∧
    (ps.receipt_image = none → env.finalFetchRes = FetchOutcome.resp ⟨false⟩ →
        (createCollectionOnErp env srv ps).result
            = Except.error JsErr.failedToFetchCreatedCollection ∧
        ((createCollectionOnErp env srv ps).trace.countP isDeleteCollectionCall) = 1) ∧
    (∀ o : FetchOutcome DeleteResp,
        (createCollectionOnErp { env with rollbackDeleteRes := o } srv ps).result
            = (createCollectionOnErp env srv ps).result) := by
  refine ⟨?_, ?_, ?_, ?_, fun o => createCollectionOnErp_rollback env o srv ps⟩
  · intro a u0 ur hps huri hupr hok
    rw [createCollectionOnErp_eq env srv ps email fn name dtv he hu hd hc hn,
        collectionReceiptStage_uploadFail env ps name _ _ a u0 ur hps huri hupr hok]
    refine ⟨collectionCompensate_result _ _ _ _ _, ?_⟩
    rw [collectionCompensate_trace]
    simp [isDeleteCollectionCall]
  · intro a u0 ur hps huri hupr hok hurl
    rw [createCollectionOnErp_eq env srv ps email fn name dtv he hu hd hc hn,
        collectionReceiptStage_noUrl env ps name _ _ a u0 ur hps huri hupr hok hurl]
    refine ⟨collectionCompensate_result _ _ _ _ _, ?_⟩
    rw [collectionCompensate_trace]
    simp [isDeleteCollectionCall]
  · intro a u0 url ur pr hps huri hupr hok hurl hpr hpok
    rw [createCollectionOnErp_eq env srv ps email fn name dtv he hu hd hc hn,
        collectionReceiptStage_updateFail env ps name _ _ a u0 url ur pr hps huri hupr hok hurl hpr hpok]
    refine ⟨collectionCompensate_result _ _ _ _ _, ?_⟩
    rw [collectionCompensate_trace]
    simp [isDeleteCollectionCall]
  · intro hps hff
    rw [createCollectionOnErp_eq env srv ps email fn name dtv he hu hd hc hn,
        collectionReceiptStage_none env ps name _ _ hps,
        collectionFinalFetch_fail env name _ _ hff]
    refine ⟨collectionCompensate_result _ _ _ _ _, ?_⟩
    rw [collectionCompensate_trace]
    simp [isDeleteCollectionCall]

/-- C6 witness: a concrete run whose receipt upload is rejected deletes the
created record once and reports the upload error; flipping the outcome of
the delete call to a transport error leaves the reported result unchanged. -/
theorem collectionCompensationOnce_witness :
    ((createCollectionOnErp collectionEnvUploadBad emptyServer receiptParams).result
        = Except.error (JsErr.failedToUploadReceipt 500 "Server Error") ∧
     ((createCollectionOnErp collectionEnvUploadBad emptyServer receiptParams).trace.countP
        isDeleteCollectionCall) = 1) ∧
    (createCollectionOnErp
        { collectionEnvUploadBad with rollbackDeleteRes := FetchOutcome.netError "timeout" }
        emptyServer receiptParams).result
      = (createCollectionOnErp collectionEnvUploadBad emptyServer receiptParams).result := by
  have h := collectionCompensationOnce collectionEnvUploadBad emptyServer receiptParams
      "agent@x.com" "Agent One" "COL-9" none rfl rfl rfl rfl (by decide)
  exact ⟨h.1 receiptAsset "file:///receipt.jpg" ⟨false, 500, "Server Error", none, none⟩
      rfl rfl rfl rfl,
    h.2.2.2.2 (FetchOutcome.netError "timeout")⟩



/-- C7 counterexample: createCollectionOnErp passes the caller-supplied
is_deposited flag through rather than always creating with false; with the
flag set, the stored record of a fully successful run carries the flag as 1. -/
theorem collectionDepositedFlagPassthrough_cex :
    (createCollectionOnErp collectionEnvAllOk emptyServer depositedTrueParams).result
        = Except.ok ⟨"COL-9", some (storedOfPayload (buildCollectionPayload "Agent One"
            (formatDateTimeForErp testNow) depositedTrueParams))⟩ ∧
    (storedOfPayload (buildCollectionPayload "Agent One"
        (formatDateTimeForErp testNow) depositedTrueParams)).is_deposited = 1 := ⟨rfl, rfl⟩

/-- C7 amended: on a successful run the stored record returned by
createCollectionOnErp carries exactly the normalized inputs for amount,
payment mode and the mode-specific reference fields, while is_deposited
equals the caller-supplied flag (0 or 1); the record also carries the
uploaded receipt url when a receipt was supplied. The handleSave handler of
CollectionScreen always passes the flag as false, so every record created
through the screen starts undeposited. -/
theorem collectionStoredFieldsMatch (env : CollectionEnv) (srv : ErpServer)
    (ps : CreateCollectionParams) (email fn name : String) (dtv : Option String)
    (he : runFetchLoggedInUserEmail env.emailRes = Except.ok email)
    (hu : runFetchUserFullName email env.userRes = Except.ok fn)
    (hd : normalizeCollectionDatetime env.isoParse ps.collection_datetime = Except.ok dtv)
    (hc : env.createRes = okCreated name) (hn : name ≠ "")
    (hff : env.finalFetchRes = FetchOutcome.resp ⟨true⟩) :
    (ps.receipt_image = none →
      (createCollectionOnErp env srv ps).result = Except.ok ⟨name,
        some (storedOfPayload
          (buildCollectionPayload fn (dtv.getD (formatDateTimeForErp env.now)) ps))⟩) ∧
    (∀ (a : ImageAsset) (u0 url : String) (ur : UploadResp) (pr : PutResp),
        ps.receipt_image = some a → truthyStr a.uri = some u0 →
        env.uploadRes = FetchOutcome.resp ur → ur.ok = true →
        jsFileUrlChain ur.messageFileUrl ur.topFileUrl = some url →
        env.updateRes = FetchOutcome.resp pr → pr.ok = true →
        (createCollectionOnErp env srv ps).result = Except.ok ⟨name,
          some { storedOfPayload
              (buildCollectionPayload fn (dtv.getD (formatDateTimeForErp env.now)) ps)
            with receipt_image := some url }⟩) ∧
    (∀ (fullName edt : String) (ps2 : CreateCollectionParams),
        (storedOfPayload (buildCollectionPayload fullName edt ps2)).amount = ps2.amount ∧
        (storedOfPayload (buildCollectionPayload fullName edt ps2)).mode = ps2.mode ∧
        (storedOfPayload (buildCollectionPayload fullName edt ps2)).upi_txn_id
            = orUndefined ps2.upi_txn_id ∧
        (storedOfPayload (buildCollectionPayload fullName edt ps2)).cheque_no
            = orUndefined ps2.cheque_no ∧
        (storedOfPayload (buildCollectionPayload fullName edt ps2)).is_deposited
            = (if ps2.is_deposited then 1 else 0)) ∧
    (∀ (sp : String → Option JsDate) (now : JsDate) (form : FOSCollectionForm)
        (psv : CreateCollectionParams),
        collectionHandleSaveValidate sp now form = CollectionSaveStep.callService psv →
        psv.is_deposited = false) := by
  refine ⟨?_, ?_, ?_, ?_⟩
  · intro hps
    rw [createCollectionOnErp_eq env srv ps email fn name dtv he hu hd hc hn,
        collectionReceiptStage_none env ps name _ _ hps,
        collectionFinalFetch_ok env name _ _ hff]
    simp [ErpServer.putCollectionDoc]
  · intro a u0 url ur pr hps huri hupr hok hurl hpr hpok
    rw [createCollectionOnErp_eq env srv ps email fn name dtv he hu hd hc hn,
        collectionReceiptStage_uploadOk env ps name _ _ a u0 url ur pr hps huri hupr hok hurl hpr hpok,
        collectionFinalFetch_ok env name _ _ hff]
    simp [ErpServer.putCollectionDoc, ErpServer.modifyCollectionDoc]
  · intro fullName edt ps2
    simp [storedOfPayload, buildCollectionPayload]
  · intro sp now form psv h
    unfold collectionHandleSaveValidate at h
    dsimp only at h
    repeat' split at h
    all_goals try cases h
    all_goals rfl



/-- C7 witness: a concrete all-success run with a receipt image returns the
stored record carrying the normalized inputs and the uploaded receipt url. -/
theorem collectionStoredFieldsMatch_witness :
    (createCollectionOnErp collectionEnvAllOk emptyServer receiptParams).result
        = Except.ok ⟨"COL-9", some { storedOfPayload (buildCollectionPayload "Agent One"
            (formatDateTimeForErp testNow) receiptParams)
          with receipt_image := some "/files/receipt.jpg" }⟩ :=
  (collectionStoredFieldsMatch collectionEnvAllOk emptyServer receiptParams
      "agent@x.com" "Agent One" "COL-9" none rfl rfl rfl rfl (by decide) rfl).2.1
    receiptAsset "file:///receipt.jpg" "/files/receipt.jpg"
    ⟨true, 200, "", some "/files/receipt.jpg", none⟩ ⟨true, 200, ""⟩
    rfl rfl rfl rfl rfl rfl rfl

/-- C4 counterexample: createCollectionOnErp applies no UPI validation: with
mode UPI and an empty transaction id it performs five network calls and
succeeds, creating a record without the field rather than failing with a
validation error before any network call. -/
theorem upiNoValidationInService_cex :
    (createCollectionOnErp collectionEnvAllOk emptyServer upiNoTxnParams).result
        = Except.ok ⟨"COL-9", some (storedOfPayload (buildCollectionPayload "Agent One"
            (formatDateTimeForErp testNow) upiNoTxnParams))⟩ ∧
    (createCollectionOnErp collectionEnvAllOk emptyServer upiNoTxnParams).trace.length = 5 ∧
    (buildCollectionPayload "Agent One"
        (formatDateTimeForErp testNow) upiNoTxnParams).upi_txn_id = none :=
  ⟨rfl, rfl, rfl⟩

/-- C4 amended: the UPI transaction id requirement is enforced by the
handleSave handler of CollectionScreen before the service is ever invoked:
for any form in UPI mode with a blank transaction id that passes the earlier
required-field and amount checks, the handler shows the Missing UPI Txn ID
alert and a save tap performs zero network calls. The service itself
validates nothing (see the counterexample), so the pre-network guarantee
holds only for calls that go through the screen. -/
theorem upiValidationInHandleSave (sp : String → Option JsDate) (now : JsDate)
    (form : FOSCollectionForm) (q : ℚ)
    (ha : jsTrim form.fos_agent ≠ "") (hcu : jsTrim form.customer ≠ "")
    (ham : jsTrim form.amount ≠ "")
    (hq : jsParseFloat (jsTrim form.amount) = some q) (hqpos : ¬ q ≤ 0)
    (hm : form.mode = ModeType.UPI) (ht : jsTrim form.upi_txn_id = "") :
    collectionHandleSaveValidate sp now form
        = CollectionSaveStep.alert "Missing UPI Txn ID"
            "Please enter UPI transaction ID for UPI mode." ∧
    ∀ (env : CollectionEnv) (srv : ErpServer),
        collectionHandleSaveTrace env sp now srv form = [] := by
  have hv : collectionHandleSaveValidate sp now form
      = CollectionSaveStep.alert "Missing UPI Txn ID"
          "Please enter UPI transaction ID for UPI mode." := by
    unfold collectionHandleSaveValidate
    rw [if_neg (by simp [ha, hcu, ham]), hq]
    dsimp only
    rw [if_neg hqpos, if_pos ⟨hm, ht⟩]
  refine ⟨hv, ?_⟩
  intro env srv
  unfold collectionHandleSaveTrace
  rw [hv]

/-- C4 witness: the concrete UPI form with amount 500 and a blank
transaction id alerts and performs no network call. -/
theorem upiValidationInHandleSave_witness :
    collectionHandleSaveValidate noIsoParse testNow upiForm
        = CollectionSaveStep.alert "Missing UPI Txn ID"
            "Please enter UPI transaction ID for UPI mode." ∧
    ∀ (env : CollectionEnv) (srv : ErpServer),
        collectionHandleSaveTrace env noIsoParse testNow srv upiForm = [] :=
  upiValidationInHandleSave noIsoParse testNow upiForm ((500 : Nat) : ℚ)
    (by decide) (by decide) (by decide) rfl (by norm_num) rfl rfl



/-- C9 counterexample: in createCashDeposit the slip upload step does not
fail with an upload error on a non-2xx response: with the upload rejected
(status 500) and everything else succeeding, the operation still returns
the stored deposit. -/
theorem depositSlipUploadSwallowed_cex :
    (createCashDeposit depositEnvUploadBad emptyServer slipSelectionParams).result
        = Except.ok (some ⟨buildDepositPayload "Agent One" "2025-11-24" slipSelectionParams,
            none⟩) := rfl

/-- C9 amended: upload failure handling differs between the two flows. In
createCollectionOnErp a non-2xx receipt upload throws an error carrying the
status and body, and an upload response without a file url throws the
missing-file-url error. In createCashDeposit a non-2xx slip upload and a
slip-upload response without a file url are both swallowed: the run
continues and reports success. -/
theorem uploadFailureHandling (env : CollectionEnv) (denv : DepositEnv)
    (srv dsrv : ErpServer) (ps : CreateCollectionParams) (dps : CreateDepositParams)
    (email fn name demail dfn dnd dname : String) (dtv : Option String)
    (he : runFetchLoggedInUserEmail env.emailRes = Except.ok email)
    (hu : runFetchUserFullName email env.userRes = Except.ok fn)
    (hd : normalizeCollectionDatetime env.isoParse ps.collection_datetime = Except.ok dtv)
    (hc : env.createRes = okCreated name) (hn : name ≠ "")
    (dhe : runFetchLoggedInUserEmail denv.emailRes = Except.ok demail)
    (dhu : runFetchUserFullName demail denv.userRes = Except.ok dfn)
    (dhd : normalizeDepositDate denv.now dps.deposit_date = Except.ok dnd)
    (dhc : denv.createRes = okCreated dname) (dhn : dname ≠ "")
    (dhsp : ∃ pr, denv.slipPutRes = FetchOutcome.resp pr)
    (dhff : denv.finalFetchRes = FetchOutcome.resp ⟨true⟩) :
    (∀ (a : ImageAsset) (u0 : String) (ur : UploadResp),
        ps.receipt_image = some a → truthyStr a.uri = some u0 →
        env.uploadRes = FetchOutcome.resp ur → ur.ok = false →
        (createCollectionOnErp env srv ps).result
            = Except.error (JsErr.failedToUploadReceipt ur.status ur.text)) ∧
    (∀ (a : ImageAsset) (u0 : String) (ur : UploadResp),
        ps.receipt_image = some a → truthyStr a.uri = some u0 →
        env.uploadRes = FetchOutcome.resp ur → ur.ok = true →
        jsFileUrlChain ur.messageFileUrl ur.topFileUrl = none →
        (createCollectionOnErp env srv ps).result = Except.error JsErr.receiptNoFileUrl) ∧
    (∀ ur : UploadResp, denv.uploadRes = FetchOutcome.resp ur → ur.ok = false →
        (createCashDeposit denv dsrv dps).result.isOk = true) ∧
    (∀ ur : UploadResp, denv.uploadRes = FetchOutcome.resp ur → ur.ok = true →
        jsFileUrlChain ur.messageFileUrl ur.topFileUrl = none →
        (createCashDeposit denv dsrv dps).result.isOk = true) := by
  refine ⟨?_, ?_, ?_, ?_⟩
  · intro a u0 ur hps huri hupr hok
    rw [createCollectionOnErp_eq env srv ps email fn name dtv he hu hd hc hn,
        collectionReceiptStage_uploadFail env ps name _ _ a u0 ur hps huri hupr hok]
    exact collectionCompensate_result _ _ _ _ _
  · intro a u0 ur hps huri hupr hok hurl
    rw [createCollectionOnErp_eq env srv ps email fn name dtv he hu hd hc hn,
        collectionReceiptStage_noUrl env ps name _ _ a u0 ur hps huri hupr hok hurl]
    exact collectionCompensate_result _ _ _ _ _
  · intro ur hupr hok
    rw [createCashDeposit_eq denv dsrv dps demail dfn dnd dname dhe dhu dhd dhc dhn]
    obtain ⟨u, srv1, heq, hmem⟩ := depositSlipStage_resp denv dps dname _ _ ⟨ur, hupr⟩ dhsp
    rw [heq]
    obtain ⟨hres, htr⟩ := depositAfterSlip_ok denv dps dname _ srv1 dhff
    rw [hres]
    rfl
  · intro ur hupr hok hurl
    rw [createCashDeposit_eq denv dsrv dps demail dfn dnd dname dhe dhu dhd dhc dhn]
    obtain ⟨u, srv1, heq, hmem⟩ := depositSlipStage_resp denv dps dname _ _ ⟨ur, hupr⟩ dhsp
    rw [heq]
    obtain ⟨hres, htr⟩ := depositAfterSlip_ok denv dps dname _ srv1 dhff
    rw [hres]
    rfl

/-- C9 witness: on concrete runs, a rejected receipt upload fails the
collection flow with the status and body while a rejected slip upload leaves
the deposit flow successful. -/
theorem uploadFailureHandling_witness :
    (createCollectionOnErp collectionEnvUploadBad emptyServer receiptParams).result
        = Except.error (JsErr.failedToUploadReceipt 500 "Server Error") ∧
    (createCashDeposit depositEnvUploadBad emptyServer slipSelectionParams).result.isOk
        = true := by
  have h := uploadFailureHandling collectionEnvUploadBad depositEnvUploadBad
      emptyServer emptyServer receiptParams slipSelectionParams
      "agent@x.com" "Agent One" "COL-9" "agent@x.com" "Agent One" "2025-11-24" "DEP-1" none
      rfl rfl rfl rfl (by decide) rfl rfl rfl rfl (by decide) ⟨_, rfl⟩ rfl
  exact ⟨h.1 receiptAsset "file:///receipt.jpg" ⟨false, 500, "Server Error", none, none⟩
      rfl rfl rfl rfl,
    h.2.2.1 ⟨false, 500, "Server Error", none, none⟩ rfl rfl⟩

/-- C3 counterexample: the deposit-date input 24-13-2025 (month 13) does not
fail with the invalid-date error; it is converted, without any month
validation, to 2025-13-24. -/
theorem invalidMonthAccepted_cex :
    normalizeDepositDate testNow "24-13-2025" = Except.ok "2025-13-24" ∧
    normalizeDepositDate testNow "24-13-2025" ≠ Except.error JsErr.invalidDepositDate := by
  exact ⟨by decide, by decide⟩

/-- C3 amended: deposit-date normalization converts day-month-year inputs
with either separator to year-month-day, passes year-month-day input
through, defaults empty input to today, and converts 24-13-2025 to
2025-13-24 without validating the month; only inputs matching neither
pattern fail with the invalid-date error. -/
theorem depositDateNormalization (now : JsDate) :
    normalizeDepositDate now "24/11/2025" = Except.ok "2025-11-24" ∧
    normalizeDepositDate now "24-11-2025" = Except.ok "2025-11-24" ∧
    normalizeDepositDate now "2025-11-24" = Except.ok "2025-11-24" ∧
    normalizeDepositDate now "" = Except.ok (formatDateForErp now) ∧
    normalizeDepositDate now "24-13-2025" = Except.ok "2025-13-24" ∧
    normalizeDepositDate now "not-a-date" = Except.error JsErr.invalidDepositDate :=
  ⟨rfl, rfl, rfl, rfl, rfl, rfl⟩



/-- C10: each of the three list request URLs carries the literal query
suffix limiting the page to 999 records ordered by creation descending, and
under the modelled list semantics of the external ERP (`erpListRows`) a
response never exceeds 999 rows, so any distinct record ranked at position
999 or later in the ordering is absent from the returned sequence. -/
theorem listRequestsLimit999 :
    (∀ email : String, ∃ pre : String,
        fetchUndepositedCollectionsUrl email
            = pre ++ "&limit_page_length=999&order_by=creation desc") ∧
    (∀ email : String, ∃ pre : String,
        fetchMyDepositsUrl email = pre ++ "&limit_page_length=999&order_by=creation desc") ∧
    (∀ agentName email : String, ∃ pre : String,
        fetchCollectionsForLoggedInUserUrl agentName email
            = pre ++ "&limit_page_length=999&order_by=creation desc") ∧
    (∀ (rows : List Nat), (erpListRows rows 999).length ≤ 999) ∧
    (∀ (rows : List Nat) (i : Nat) (hi : i < rows.length),
        rows.Nodup → 999 ≤ i → rows.get ⟨i, hi⟩ ∉ erpListRows rows 999) := by
  refine ⟨?_, ?_, ?_, ?_, ?_⟩
  · intro email
    exact ⟨_, rfl⟩
  · intro email
    refine ⟨ERP_FOS_DEPOSIT_URL ++ "?filters="
        ++ encodeURIComponent ("[[\"owner\",\"=\"," ++ jsonString email ++ "]]")
        ++ "&fields=[\"*\"]", ?_⟩
    unfold fetchMyDepositsUrl
    simp only [String.append_assoc]
    rfl
  · intro agentName email
    refine ⟨ERP_FOS_COLLECTION_URL ++ "?filters="
        ++ encodeURIComponent (fetchCollectionsForLoggedInUserFilters agentName email)
        ++ "&fields=[\"*\"]", ?_⟩
    unfold fetchCollectionsForLoggedInUserUrl
    simp only [String.append_assoc]
    rfl
  · intro rows
    simp [erpListRows]
  · intro rows i hi hnd h999 hmem
    unfold erpListRows at hmem
    obtain ⟨j, hjeq⟩ := List.mem_iff_get.mp hmem
    have hjlt : (j : Nat) < 999 := lt_of_lt_of_le j.isLt (by simp [List.length_take])
    have hjrows : (j : Nat) < rows.length := lt_of_lt_of_le hjlt (le_trans h999 (le_of_lt hi))
    have hgt : (rows.take 999).get j = rows.get ⟨j, hjrows⟩ := by
      simp [List.get_eq_getElem, List.getElem_take]
    rw [hgt] at hjeq
    have hfin := (List.Nodup.get_inj_iff hnd).mp hjeq
    have hji : (j : Nat) = i := by
      simpa using congrArg Fin.val hfin
    omega

/-- C10 witness: with one thousand distinct records, the record at position
999 of the ordering is omitted from the limited response. -/
theorem listRequestsLimit999_witness :
    (List.range 1000).get ⟨999, by simp⟩ ∉ erpListRows (List.range 1000) 999 :=
  listRequestsLimit999.2.2.2.2 (List.range 1000) 999 (by simp) (List.nodup_range 1000)
    (le_refl 999)


end FOS
